import Mathlib

/-!
Verification development for the NovelAI image-generation plugin core
(`constants.py`, `parser.py`, `nai_models.py`, `nai_api.py`, `queue_manager.py`).

Conventions of the shallow embedding:
* Python `str` is `String` (scanning is done on `List Char`).
* Python `float` is `ℚ`; decimal literals are embedded as exact decimals.
* Python `int` is `ℤ` (or `ℕ` where the source value is manifestly a count).
* Python `dict` values with a fixed key set become structures; a key that the
  source only conditionally inserts becomes an `Option` field (`none` = absent).
* Fallible code (`raise`) returns `Except` with the message string.
* Literal braces inside Python strings are written with the escapes \x7b \x7d,
  and literal apostrophes with \x27.
-/

namespace NovelAI

/-! ## constants.py -/

/-- constants.py line 7: the six supported model identifiers. -/
def MODELS : List String :=
  [ "nai-diffusion-4-5-full"
  , "nai-diffusion-4-5-curated"
  , "nai-diffusion-4-full"
  , "nai-diffusion-4-curated-preview"
  , "nai-diffusion-3"
  , "nai-diffusion-furry-3" ]

/-- constants.py line 17: supported sampler identifiers. -/
def SAMPLERS : List String :=
  [ "k_euler"
  , "k_euler_ancestral"
  , "k_dpmpp_2s_ancestral"
  , "k_dpmpp_2m"
  , "k_dpmpp_sde"
  , "k_dpmpp_2m_sde" ]

/-- constants.py line 33: RESOLUTION_MAP, embedded as a lookup function
(`none` = key absent from the dict). -/
def RESOLUTION_MAP : String → Option (ℕ × ℕ) := fun k =>
  if k = "竖图" then some (832, 1216)
  else if k = "横图" then some (1216, 832)
  else if k = "方图" then some (1024, 1024)
  else none

/-- constants.py line 40: the 25 valid position codes, generated as in the
source comprehension (letters A..E = chr 65..69, digits 1..5). -/
def CHARACTER_POSITIONS : List String :=
  (List.range' 65 5).flatMap fun letter =>
    (List.range' 1 5).map fun number =>
      String.mk [Char.ofNat letter, Char.ofNat (48 + number)]

/-- constants.py line 52: `col_map.get(letter, 0.5)`. -/
def col_map_get (c : Char) : ℚ :=
  if c = 'A' then 1/10
  else if c = 'B' then 3/10
  else if c = 'C' then 5/10
  else if c = 'D' then 7/10
  else if c = 'E' then 9/10
  else 5/10

/-- constants.py line 56: `row_map.get(number, 0.5)`. -/
def row_map_get (c : Char) : ℚ :=
  if c = '1' then 1/10
  else if c = '2' then 3/10
  else if c = '3' then 5/10
  else if c = '4' then 7/10
  else if c = '5' then 9/10
  else 5/10

/-- constants.py lines 43-59: `position_to_float`.  The source returns the
center when the string is empty or shorter than 2 characters; otherwise it
uppercases character 0, reads character 1, and maps each axis independently
with default 0.5. -/
def position_to_float (position : String) : ℚ × ℚ :=
  match position.data with
  | c0 :: c1 :: _ => (col_map_get c0.toUpper, row_map_get c1)
  | _ => (5/10, 5/10)

/-- constants.py lines 104-114: per-model quality-tag strings. -/
def get_quality_tags (model : String) : String :=
  if model = "nai-diffusion-4-5-full" then ", very aesthetic, masterpiece, no text"
  else if model = "nai-diffusion-4-5-curated" then
    ", very aesthetic, masterpiece, no text, -0.8::feet::, rating:general"
  else if model = "nai-diffusion-4-full" then
    ", no text, best quality, very aesthetic, absurdres"
  else if model = "nai-diffusion-4-curated-preview" then
    ", rating:general, best quality, very aesthetic, absurdres"
  else if model = "nai-diffusion-3" then
    ", best quality, amazing quality, very aesthetic, absurdres"
  else if model = "nai-diffusion-furry-3" then
    ", \x7bbest quality\x7d, \x7bamazing quality\x7d"
  else ""

/-- constants.py lines 62-101: per-model / per-preset ucPreset codes
(default 0 on any miss, as in the double `.get`). -/
def get_uc_preset_value (model preset : String) : ℕ :=
  if model = "nai-diffusion-4-5-full" then
    (if preset = "Heavy" then 0 else if preset = "Light" then 1
     else if preset = "Furry Focus" then 2 else if preset = "Human Focus" then 3
     else if preset = "None" then 4 else 0)
  else if model = "nai-diffusion-4-5-curated" then
    (if preset = "Heavy" then 0 else if preset = "Light" then 1
     else if preset = "Human Focus" then 2 else if preset = "None" then 3 else 0)
  else if model = "nai-diffusion-3" then
    (if preset = "Heavy" then 0 else if preset = "Light" then 1
     else if preset = "Human Focus" then 2 else if preset = "None" then 3 else 0)
  else if model = "nai-diffusion-furry-3" then
    (if preset = "Heavy" then 0 else if preset = "Light" then 1
     else if preset = "None" then 2 else 0)
  else if model = "nai-diffusion-4-curated-preview" then
    (if preset = "Heavy" then 0 else if preset = "Light" then 1
     else if preset = "None" then 2 else 0)
  else if model = "nai-diffusion-4-full" then
    (if preset = "Heavy" then 0 else if preset = "Light" then 1
     else if preset = "None" then 2 else 0)
  else 0

/-- constants.py lines 158-168: per-model skip_cfg_above_sigma constants
(embedded as the exact decimals written in the source; default 0.0). -/
def get_skip_cfg_above_sigma (model : String) : ℚ :=
  if model = "nai-diffusion-4-5-full" then 58
  else if model = "nai-diffusion-4-5-curated" then 36158893609242725 / 1000000000000000
  else if model = "nai-diffusion-3" then 1184515480302779 / 100000000000000
  else if model = "nai-diffusion-furry-3" then 1184515480302779 / 100000000000000
  else if model = "nai-diffusion-4-curated-preview" then 1184515480302779 / 100000000000000
  else if model = "nai-diffusion-4-full" then 18254609533779934 / 1000000000000000
  else 0

/-- The letter axis table exactly as the claim words it: A maps to 0.1, B to
0.3, C to 0.5, D to 0.7, E to 0.9; any other letter is outside the valid set. -/
def claimLetterX (c : Char) : Option ℚ :=
  if c = 'A' then some (1/10)
  else if c = 'B' then some (3/10)
  else if c = 'C' then some (5/10)
  else if c = 'D' then some (7/10)
  else if c = 'E' then some (9/10)
  else none

/-- The digit axis table exactly as the claim words it: 1 maps to 0.1, 2 to
0.3, 3 to 0.5, 4 to 0.7, 5 to 0.9; any other digit is outside the valid set. -/
def claimDigitY (c : Char) : Option ℚ :=
  if c = '1' then some (1/10)
  else if c = '2' then some (3/10)
  else if c = '3' then some (5/10)
  else if c = '4' then some (7/10)
  else if c = '5' then some (9/10)
  else none

/-! ## parser.py — helpers -/

/-- Python whitespace (`\s`, `str.strip`) restricted to the ASCII range the
command grammar uses. -/
def pyIsSpace (c : Char) : Bool :=
  c = ' ' ∨ c = '\t' ∨ c = '\n' ∨ c = '\r' ∨ c = '\x0b' ∨ c = '\x0c'

/-- Python `str.strip()` on a character list. -/
def pyStripList (l : List Char) : List Char :=
  ((l.dropWhile pyIsSpace).reverse.dropWhile pyIsSpace).reverse

/-- Python `str.strip()`. -/
def pyStrip (s : String) : String := String.mk (pyStripList s.data)

/-- Python `str.upper()` (per-character, as used on ASCII position codes). -/
def pyUpper (s : String) : String := String.mk (s.data.map Char.toUpper)

/-- Value of a list of decimal digit characters. -/
def digitsToNat (l : List Char) : ℕ :=
  l.foldl (fun a c => 10 * a + (c.toNat - 48)) 0

/-- Python `int(str)`: strip, optional sign, one or more ASCII digits.
(Underscore separators and non-ASCII digits are not modelled.) -/
def pyInt? (s : String) : Option ℤ :=
  let core : List Char → Option ℤ := fun ds =>
    if ds ≠ [] ∧ ds.all Char.isDigit then some (digitsToNat ds : ℤ) else none
  match pyStripList s.data with
  | '+' :: ds => core ds
  | '-' :: ds => (core ds).map Neg.neg
  | ds => core ds

/-- Mantissa-and-exponent part of Python `float(str)` (sign already removed):
digits, optional point and fraction digits, optional exponent. -/
def pyFloatCore (t : List Char) : Option ℚ :=
  let ip := t.takeWhile Char.isDigit
  let r1 := t.dropWhile Char.isDigit
  let fp : List Char := match r1 with
    | '.' :: r => r.takeWhile Char.isDigit
    | _ => []
  let r2 : List Char := match r1 with
    | '.' :: r => r.dropWhile Char.isDigit
    | _ => r1
  if ip = [] ∧ fp = [] then none
  else
    let mant : ℚ := (digitsToNat ip : ℚ) + (digitsToNat fp : ℚ) / (10 ^ fp.length)
    let expo : List Char → Option ℚ := fun ds =>
      if ds ≠ [] ∧ ds.all Char.isDigit then
        some (mant * 10 ^ (digitsToNat ds)) else none
    let expoNeg : List Char → Option ℚ := fun ds =>
      if ds ≠ [] ∧ ds.all Char.isDigit then
        some (mant / 10 ^ (digitsToNat ds)) else none
    match r2 with
    | [] => some mant
    | e :: r3 =>
      if e = 'e' ∨ e = 'E' then
        match r3 with
        | '+' :: ds => expo ds
        | '-' :: ds => expoNeg ds
        | ds => expo ds
      else none

/-- Python `float(str)` over the decimal forms the parser can meet
(`inf`/`nan` and underscore separators are not modelled). -/
def pyFloat? (s : String) : Option ℚ :=
  match pyStripList s.data with
  | '+' :: t => pyFloatCore t
  | '-' :: t => (pyFloatCore t).map Neg.neg
  | t => pyFloatCore t

/-- Rendering of the float bound constants that `_parse_float` interpolates in
its error messages (`0.0`, `0.99`, `1.0`, `10.0`): integer part, point, then
the fractional digits with trailing zeros removed (at least one digit). -/
def floatRepr (q : ℚ) : String :=
  let scaled : ℕ := (q * 1000000).num.toNat
  let ip : ℕ := scaled / 1000000
  let fracNat : ℕ := scaled % 1000000
  let ds := Nat.toDigits 10 fracNat
  let padded := List.replicate (6 - ds.length) '0' ++ ds
  let frac := (padded.reverse.dropWhile (fun c => c = '0')).reverse
  toString ip ++ "." ++ (if frac = [] then "0" else String.mk frac)

/-- parser.py lines 73-81: `_parse_bool`. -/
def parse_bool_v (value : Option String) (fieldName : String) (dflt : Bool) :
    Except String Bool :=
  match value with
  | none => .ok dflt
  | some v =>
    let text := pyStrip v
    if text ∈ ["是", "true", "True", "1", "yes", "YES"] then .ok true
    else if text ∈ ["否", "false", "False", "0", "no", "NO"] then .ok false
    else .error (fieldName ++ "参数无效，只能填写\x27是\x27或\x27否\x27")

/-- Bound checks shared by `_parse_float` (lines 98-102). -/
def float_check (fieldName : String) (number : ℚ) (minV maxV : Option ℚ) :
    Except String ℚ :=
  match minV with
  | some m =>
    if number < m then .error (fieldName ++ "参数不能小于" ++ floatRepr m)
    else match maxV with
      | some M =>
        if number > M then .error (fieldName ++ "参数不能大于" ++ floatRepr M)
        else .ok number
      | none => .ok number
  | none =>
    match maxV with
    | some M =>
      if number > M then .error (fieldName ++ "参数不能大于" ++ floatRepr M)
      else .ok number
    | none => .ok number

/-- parser.py lines 84-102: `_parse_float`. -/
def parse_float_v (value : Option String) (fieldName : String) (dflt : ℚ)
    (minV maxV : Option ℚ) : Except String ℚ :=
  match value with
  | none => .ok dflt
  | some v =>
    if pyStrip v = "" then .ok dflt
    else match pyFloat? v with
      | none => .error (fieldName ++ "参数必须是数字")
      | some number => float_check fieldName number minV maxV

/-- Bound checks shared by `_parse_int` (lines 119-123). -/
def int_check (fieldName : String) (number : ℤ) (minV maxV : Option ℤ) :
    Except String (Option ℤ) :=
  match minV with
  | some m =>
    if number < m then .error (fieldName ++ "参数不能小于" ++ toString m)
    else match maxV with
      | some M =>
        if number > M then .error (fieldName ++ "参数不能大于" ++ toString M)
        else .ok (some number)
      | none => .ok (some number)
  | none =>
    match maxV with
    | some M =>
      if number > M then .error (fieldName ++ "参数不能大于" ++ toString M)
      else .ok (some number)
    | none => .ok (some number)

/-- parser.py lines 105-123: `_parse_int`. -/
def parse_int_v (value : Option String) (fieldName : String) (dflt : Option ℤ)
    (minV maxV : Option ℤ) : Except String (Option ℤ) :=
  match value with
  | none => .ok dflt
  | some v =>
    if pyStrip v = "" then .ok dflt
    else match pyInt? v with
      | none => .error (fieldName ++ "参数必须是整数")
      | some n => int_check fieldName n minV maxV

/-! ## parser.py — the `_PAIR_PATTERN` scanner (`_collect_pairs`)

The regex is `\s*(\S+)[：:]\s*<(.*?)>(?=\s*\S+[：:]\s*<|\s*$)` with DOTALL,
applied by `finditer`.  The functions below implement its backtracking
semantics directly: skip whitespace, take the maximal non-whitespace run,
choose the largest split point at a colon such that the remainder matches
`\s*<`, then lazily scan for the first `>` whose right context satisfies the
lookahead (either only trailing whitespace, or whitespace then another
`key:<` opening). -/

/-- Python dict with string keys, as an insertion-ordered association list
(`d[k] = v` replaces in place or appends). -/
def dictSet (d : List (String × String)) (k v : String) : List (String × String) :=
  match d with
  | [] => [(k, v)]
  | (k0, v0) :: rest => if k0 = k then (k0, v) :: rest else (k0, v0) :: dictSet rest k v

/-- Python `dict.get`. -/
def dictGet (d : List (String × String)) (k : String) : Option String :=
  match d with
  | [] => none
  | (k0, v0) :: rest => if k0 = k then some v0 else dictGet rest k

/-- A full-width or ASCII colon (`[：:]`). -/
def isColonChar (c : Char) : Bool := c = ':' ∨ c = '：'

/-- The `\S+[：:]\s*<` part of the lookahead, scanned over a non-whitespace
run with `rest` the text that follows the run.  `prev` records whether at
least one run character precedes the current one (the `\S+` needs one). -/
def lookaheadKeyRun : Bool → List Char → List Char → Bool
  | _, [], _ => false
  | prev, c :: cs, rest =>
    (prev && isColonChar c &&
      (match cs with
       | [] => (rest.dropWhile pyIsSpace).head? == some '<'
       | d :: _ => d == '<'))
    || lookaheadKeyRun true cs rest

/-- The lookahead `(?=\s*\S+[：:]\s*<|\s*$)` evaluated at the text `u` that
follows a candidate closing `>`. -/
def lookaheadOK (u : List Char) : Bool :=
  let u1 := u.dropWhile pyIsSpace
  u1.isEmpty ||
    lookaheadKeyRun false (u1.takeWhile (fun c => !pyIsSpace c))
      (u1.dropWhile (fun c => !pyIsSpace c))

/-- Lazy scan of `(.*?)>` guarded by the lookahead: the value ends at the
first `>` whose right context satisfies `lookaheadOK`. -/
def valueScan : List Char → Option (List Char × List Char)
  | [] => none
  | c :: cs =>
    if c = '>' ∧ lookaheadOK cs then some ([], cs)
    else match valueScan cs with
      | some (v, u) => some (c :: v, u)
      | none => none

/-- One candidate split of the non-whitespace run at index `j`: characters
before `j` form the key, `run[j]` must be a colon, and `\s*<value>` must
follow.  Key and value are `.strip()`-ed as in `_collect_pairs`. -/
def trySplitAt (run rest : List Char) (j : ℕ) : Option (String × String × List Char) :=
  match run.get? j with
  | none => none
  | some cj =>
    if 1 ≤ j ∧ isColonChar cj then
      match (run.drop (j + 1) ++ rest).dropWhile pyIsSpace with
      | '<' :: t =>
        match valueScan t with
        | some (v, u) => some (String.mk (pyStripList (run.take j)), String.mk (pyStripList v), u)
        | none => none
      | _ => none
    else none

/-- Greedy `\S+` backtracking: try the split points from the largest down. -/
def tryKeySplits (run rest : List Char) : Option (String × String × List Char) :=
  ((List.range run.length).reverse.map (trySplitAt run rest)).findSome? id

/-- Attempt to match `_PAIR_PATTERN` at the start of `s`. -/
def matchPairAt (s : List Char) : Option (String × String × List Char) :=
  let s1 := s.dropWhile pyIsSpace
  let run := s1.takeWhile (fun c => !pyIsSpace c)
  if run.isEmpty then none
  else tryKeySplits run (s1.dropWhile (fun c => !pyIsSpace c))

/-- `finditer` scanning: on a failed match the start position advances by one
character. -/
def findPairFrom : List Char → Option (String × String × List Char)
  | [] => none
  | c :: cs =>
    match matchPairAt (c :: cs) with
    | some r => some r
    | none => findPairFrom cs

/-- Iterated matching; the fuel (initially the text length) dominates the
number of matches since every match consumes at least one character. -/
def collectPairsGo : ℕ → List Char → List (String × String)
  | 0, _ => []
  | fuel + 1, s =>
    match findPairFrom s with
    | none => []
    | some (k, v, u) => (k, v) :: collectPairsGo fuel u

/-- parser.py lines 126-132: `_collect_pairs`. -/
def collectPairs (s : List Char) : List (String × String) :=
  collectPairsGo s.length s

/-! ## parser.py — parameter routing and validation -/

/-- parser.py lines 51-70: the closed set of general keys. -/
def GENERAL_KEYS : List String :=
  [ "正面词条", "负面词条", "是否有福瑞", "添加质量词", "底图", "底图重绘强度"
  , "底图加噪强度", "分辨率", "步数", "指导系数", "重采样系数", "种子"
  , "采样器", "角色是否分区", "角色参考", "角色参考强度", "是否注意原画风", "模型" ]

/-- Per-character parameter storage (`character_params[index]`). -/
structure CharEntry where
  positive : Option String := none
  negative : Option String := none
  position : Option String := none
deriving DecidableEq

/-- parser.py line 161: the recognised character-key suffixes. -/
def charSuffixes : List String := ["正面词条", "负面词条", "位置"]

/-- parser.py lines 157-180: `_set_character_param`.  `none` means the key is
not a character key (the Python function returns `False`); otherwise the
routing either raises or updates the per-character map. -/
def setCharacterParam (key value : String) (cmap : ℕ → Option CharEntry) :
    Option (Except String (ℕ → Option CharEntry)) :=
  if ¬ "角色".data.isPrefixOf key.data then none
  else
    match charSuffixes.find? (fun suf => suf.data.isSuffixOf key.data) with
    | none => none
    | some suf =>
      let body := key.data.drop 2
      let ip := body.take (body.length - suf.data.length)
      if ¬ (ip ≠ [] ∧ ip.all Char.isDigit) then
        some (.error ("角色参数格式错误: " ++ key))
      else
        let index := digitsToNat ip
        if ¬ (1 ≤ index ∧ index ≤ 5) then some (.error "角色序号仅支持1-5")
        else
          let entry := (cmap index).getD {}
          let entry2 :=
            if suf = "正面词条" then { entry with positive := some value }
            else if suf = "负面词条" then { entry with negative := some value }
            else { entry with position := some value }
          some (.ok (fun i => if i = index then some entry2 else cmap i))

/-- parser.py lines 182-187: the routing loop over collected pairs. -/
def routePairs : List (String × String) → List (String × String) →
    (ℕ → Option CharEntry) →
    Except String (List (String × String) × (ℕ → Option CharEntry))
  | [], g, c => .ok (g, c)
  | (k, v) :: rest, g, c =>
    match setCharacterParam k v c with
    | some (.error e) => .error e
    | some (.ok c2) => routePairs rest g c2
    | none =>
      if k ∈ GENERAL_KEYS then routePairs rest (dictSet g k v) c
      else .error ("未知参数: " ++ k)

/-- Number of distinct character indices stored (`len(character_params)`);
insertion enforces 1 ≤ index ≤ 5. -/
def charCount (cmap : ℕ → Option CharEntry) : ℕ :=
  ((List.range' 1 5).filter (fun i => (cmap i).isSome)).length

/-- parser.py lines 16-21: the `CharacterPrompt` dataclass. -/
structure CharacterPrompt where
  index : ℕ
  positive : String
  negative : Option String := none
  position : String := "C3"
deriving DecidableEq

/-- parser.py lines 242-257: build the character list in sorted index order
(all stored indices lie in 1..5, so iterating 1..5 is `sorted(items)`). -/
def buildCharacters (cmap : ℕ → Option CharEntry) : Except String (List CharacterPrompt) :=
  let rec go : List ℕ → Except String (List CharacterPrompt)
    | [] => .ok []
    | i :: rest =>
      match cmap i with
      | none => go rest
      | some entry =>
        match entry.positive with
        | none => .error ("角色" ++ toString i ++ "缺少正面词条")
        | some p =>
          if p = "" then .error ("角色" ++ toString i ++ "缺少正面词条")
          else
            let pos := pyUpper (match entry.position with
              | none => "C3"
              | some q => if q = "" then "C3" else q)
            if pos ∉ CHARACTER_POSITIONS then
              .error ("角色" ++ toString i ++ "位置参数无效")
            else (go rest).map (fun tail => ⟨i, p, entry.negative, pos⟩ :: tail)
  go [1, 2, 3, 4, 5]

/-- Python `x or None` on an optional string: empty collapses to `None`. -/
def pyOrNone (o : Option String) : Option String :=
  match o with
  | some v => if v = "" then none else some v
  | none => none

/-- Python `x or d` on an optional int (`None` and `0` both fall back). -/
def pyOrInt (o : Option ℤ) (d : ℤ) : ℤ :=
  match o with
  | none => d
  | some n => if n = 0 then d else n

/-- All values the parser computes before the final cross-field fix-ups.
`use_character_zones` and `character_reference_raw` here hold the values
before lines 259-264 of parser.py are applied. -/
structure Args where
  positive_prompt : String
  negative_prompt : Option String
  model_name : Option String
  furry_mode : Bool
  add_quality_tags : Bool
  base_image : Option String
  base_strength : ℚ
  base_noise : ℚ
  width : ℕ
  height : ℕ
  steps : ℤ
  guidance : ℚ
  cfg_rescale : ℚ
  seed : Option ℤ
  sampler : String
  use_character_zones : Bool
  characters : List CharacterPrompt
  character_reference_raw : Option String
  character_reference_strength : ℚ
  style_aware : Bool
  general_params : List (String × String)

/-- parser.py lines 24-47: the `ParsedParams` dataclass. -/
structure ParsedParams where
  positive_prompt : String
  negative_prompt : Option String
  negative_preset : String
  model_name : Option String
  furry_mode : Bool
  add_quality_tags : Bool
  base_image : Option String
  base_strength : ℚ
  base_noise : ℚ
  width : ℕ
  height : ℕ
  steps : ℤ
  guidance : ℚ
  cfg_rescale : ℚ
  seed : Option ℤ
  sampler : String
  use_character_zones : Bool
  characters : List CharacterPrompt := []
  character_reference : Option String := none
  character_reference_strength : ℚ := 1
  style_aware : Bool := false
  raw_params : List (String × String) := []

/-- parser.py lines 154-274: the fallible body of `parse_generation_message`
after pair collection — routing, per-field validation and defaulting, and
character construction, in source order.  The two pure cross-field fix-ups
(zone forcing, reference/base exclusivity) are applied by `finalizeParams`. -/
def collectArgs (pairs : List (String × String)) : Except String Args :=
  Except.bind (routePairs pairs [] (fun _ => none)) fun gc =>
  match dictGet gc.1 "正面词条" with
  | none => .error "未填写提示词"
  | some pp =>
  if pp = "" then .error "未填写提示词"
  else
  let g := gc.1
  let model_name := pyOrNone (dictGet g "模型")
  let negative_prompt := pyOrNone (dictGet g "负面词条")
  Except.bind (parse_bool_v (dictGet g "是否有福瑞") "是否有福瑞" false) fun furry =>
  Except.bind (parse_bool_v (dictGet g "添加质量词") "添加质量词" false) fun addq =>
  let base_image := pyOrNone (dictGet g "底图")
  Except.bind (parse_float_v (dictGet g "底图重绘强度") "底图重绘强度" (7/10)
    (some 0) (some 1)) fun base_strength =>
  Except.bind (parse_float_v (dictGet g "底图加噪强度") "底图加噪强度" 0
    (some 0) (some (99/100))) fun base_noise =>
  match RESOLUTION_MAP ((dictGet g "分辨率").getD "竖图") with
  | none => .error "分辨率参数无效"
  | some wh =>
  Except.bind (parse_int_v (dictGet g "步数") "步数" (some 28) (some 1) (some 28)) fun steps0 =>
  let steps := pyOrInt steps0 28
  Except.bind (parse_float_v (dictGet g "指导系数") "指导系数" 5 (some 0) (some 10)) fun guidance =>
  Except.bind (parse_float_v (dictGet g "重采样系数") "重采样系数" 0 (some 0) (some 1)) fun cfg_rescale =>
  Except.bind (parse_int_v (dictGet g "种子") "种子" none none none) fun seed =>
  let sampler := (dictGet g "采样器").getD "k_euler_ancestral"
  if sampler ∉ SAMPLERS then .error "采样器参数无效"
  else
  Except.bind (parse_bool_v (dictGet g "角色是否分区") "角色是否分区" false) fun ucz =>
  if charCount gc.2 > 5 then .error "角色数量最多支持5个"
  else
  Except.bind (buildCharacters gc.2) fun characters =>
  let crefRaw := pyOrNone (dictGet g "角色参考")
  Except.bind (parse_float_v (dictGet g "角色参考强度") "角色参考强度" 1
    (some 0) (some 1)) fun crefStrength =>
  Except.bind (parse_bool_v (dictGet g "是否注意原画风") "是否注意原画风" false) fun style_aware =>
  .ok
    { positive_prompt := pp
    , negative_prompt := negative_prompt
    , model_name := model_name
    , furry_mode := furry
    , add_quality_tags := addq
    , base_image := base_image
    , base_strength := base_strength
    , base_noise := base_noise
    , width := wh.1
    , height := wh.2
    , steps := steps
    , guidance := guidance
    , cfg_rescale := cfg_rescale
    , seed := seed
    , sampler := sampler
    , use_character_zones := ucz
    , characters := characters
    , character_reference_raw := crefRaw
    , character_reference_strength := crefStrength
    , style_aware := style_aware
    , general_params := g }

/-- parser.py lines 259-299: the cross-field fix-ups and the `ParsedParams`
construction.  Line 259: fewer than 2 characters force `use_character_zones`
to false.  Lines 262-264: a present base image discards the character
reference (both options already collapsed empties to `none`, so Python
truthiness is `isSome`). -/
def finalizeParams (a : Args) : ParsedParams :=
  { positive_prompt := a.positive_prompt
  , negative_prompt := a.negative_prompt
  , negative_preset := "Heavy"
  , model_name := a.model_name
  , furry_mode := a.furry_mode
  , add_quality_tags := a.add_quality_tags
  , base_image := a.base_image
  , base_strength := a.base_strength
  , base_noise := a.base_noise
  , width := a.width
  , height := a.height
  , steps := a.steps
  , guidance := a.guidance
  , cfg_rescale := a.cfg_rescale
  , seed := a.seed
  , sampler := a.sampler
  , use_character_zones := if a.characters.length ≤ 1 then false else a.use_character_zones
  , characters := a.characters
  , character_reference :=
      if a.character_reference_raw.isSome ∧ a.base_image.isSome then none
      else a.character_reference_raw
  , character_reference_strength := a.character_reference_strength
  , style_aware := a.style_aware
  , raw_params := a.general_params }

/-- `parse_generation_message` from the collected pairs down. -/
def parsePairsList (pairs : List (String × String)) : Except String ParsedParams :=
  (collectArgs pairs).map finalizeParams

/-- parser.py lines 135-299: `parse_generation_message`. -/
def parse_generation_message (message : String) : Except String ParsedParams :=
  if message = "" then .error "指令格式错误，缺少/nai开头"
  else
    let msg2 := message.data.map (fun c => if c = '，' then ',' else c)
    let stripped := pyStripList msg2
    if ¬ "/nai".data.isPrefixOf stripped then .error "指令格式错误，缺少/nai开头"
    else
      let content := pyStripList (stripped.drop 4)
      if content = [] then .error "未填写提示词"
      else
        let pairs := collectPairs content
        if pairs = [] then .error "参数格式错误，请使用 Key:<Value> 格式"
        else parsePairsList pairs

/-! ## constants.py — get_negative_preset (lines 117-155) -/

/-- constants.py lines 117-155: per-model / per-preset negative prompt texts
(default "" on any miss).  Literal braces are written \x7b \x7d. -/
def get_negative_preset (model preset : String) : String :=
  if model = "nai-diffusion-4-5-full" then
    (if preset = "Heavy" then "lowres, artistic error, film grain, scan artifacts, worst quality, bad quality, jpeg artifacts, very displeasing, chromatic aberration, dithering, halftone, screentone, multiple views, logo, too many watermarks, negative space, blank page"
     else if preset = "Light" then "lowres, artistic error, scan artifacts, worst quality, bad quality, jpeg artifacts, multiple views, very displeasing, too many watermarks, negative space, blank page"
     else if preset = "Furry Focus" then "\x7bworst quality\x7d, distracting watermark, unfinished, bad quality, \x7bwidescreen\x7d, upscale, \x7bsequence\x7d, \x7b\x7bgrandfathered content\x7d\x7d, blurred foreground, chromatic aberration, sketch, everyone, [sketch background], simple, [flat colors], ych (character), outline, multiple scenes, [[horror (theme)]], comic"
     else if preset = "Human Focus" then "lowres, artistic error, film grain, scan artifacts, worst quality, bad quality, jpeg artifacts, very displeasing, chromatic aberration, dithering, halftone, screentone, multiple views, logo, too many watermarks, negative space, blank page, @_@, mismatched pupils, glowing eyes, bad anatomy"
     else if preset = "None" then ""
     else "")
  else if model = "nai-diffusion-4-5-curated" then
    (if preset = "Heavy" then "blurry, lowres, upscaled, artistic error, film grain, scan artifacts, worst quality, bad quality, jpeg artifacts, very displeasing, chromatic aberration, halftone, multiple views, logo, too many watermarks, negative space, blank page"
     else if preset = "Light" then "blurry, lowres, upscaled, artistic error, scan artifacts, jpeg artifacts, logo, too many watermarks, negative space, blank page"
     else if preset = "Human Focus" then "blurry, lowres, upscaled, artistic error, film grain, scan artifacts, bad anatomy, bad hands, worst quality, bad quality, jpeg artifacts, very displeasing, chromatic aberration, halftone, multiple views, logo, too many watermarks, @_@, mismatched pupils, glowing eyes, negative space, blank page"
     else if preset = "None" then ""
     else "")
  else if model = "nai-diffusion-4-full" then
    (if preset = "Heavy" then "blurry, lowres, error, film grain, scan artifacts, worst quality, bad quality, jpeg artifacts, very displeasing, chromatic aberration, multiple views, logo, too many watermarks, white blank page, blank page"
     else if preset = "Light" then "blurry, lowres, error, worst quality, bad quality, jpeg artifacts, very displeasing, white blank page, blank page"
     else if preset = "None" then ""
     else "")
  else if model = "nai-diffusion-4-curated-preview" then
    (if preset = "Heavy" then "blurry, lowres, error, film grain, scan artifacts, worst quality, bad quality, jpeg artifacts, very displeasing, chromatic aberration, logo, dated, signature, multiple views, gigantic breasts, white blank page, blank page"
     else if preset = "Light" then "blurry, lowres, error, worst quality, bad quality, jpeg artifacts, very displeasing, logo, dated, signature, white blank page, blank page"
     else if preset = "None" then ""
     else "")
  else if model = "nai-diffusion-3" then
    (if preset = "Heavy" then "lowres, \x7bbad\x7d, error, fewer, extra, missing, worst quality, jpeg artifacts, bad quality, watermark, unfinished, displeasing, chromatic aberration, signature, extra digits, artistic error, username, scan, [abstract]"
     else if preset = "Light" then "lowres, jpeg artifacts, worst quality, watermark, blurry, very displeasing"
     else if preset = "Human Focus" then "lowres, \x7bbad\x7d, error, fewer, extra, missing, worst quality, jpeg artifacts, bad quality, watermark, unfinished, displeasing, chromatic aberration, signature, extra digits, artistic error, username, scan, [abstract], bad anatomy, bad hands, @_@, mismatched pupils, heart-shaped pupils, glowing eyes"
     else if preset = "None" then "lowres"
     else "")
  else if model = "nai-diffusion-furry-3" then
    (if preset = "Heavy" then "\x7b\x7bworst quality\x7d\x7d, [displeasing], \x7bunusual pupils\x7d, guide lines, \x7b\x7bunfinished\x7d\x7d, \x7bbad\x7d, url, artist name, \x7b\x7btall image\x7d\x7d, mosaic, \x7bsketch page\x7d, comic panel, impact (font), [dated], \x7blogo\x7d, ych, \x7bwhat\x7d, \x7bwhere is your god now\x7d, \x7bdistorted text\x7d, repeated text, \x7bfloating head\x7d, \x7b1994\x7d, \x7bwidescreen\x7d, absolutely everyone, sequence, \x7bcompression artifacts\x7d, hard translated, \x7bcropped\x7d, \x7bcommissioner name\x7d, unknown text, high contrast"
     else if preset = "Light" then "\x7bworst quality\x7d, guide lines, unfinished, bad, url, tall image, widescreen, compression artifacts, unknown text"
     else if preset = "None" then "lowres"
     else "")
  else ""

/-! ## nai_models.py / nai_api.py — payload structures -/

/-- One entry of `characterPrompts` (nai_api.py lines 104-111); the center
dict `{"x": x, "y": y}` is modelled as a pair. -/
structure CharPromptEntry where
  prompt : String
  uc : String
  center : ℚ × ℚ
  enabled : Bool
deriving DecidableEq

/-- One entry of `char_captions` (nai_api.py lines 102-103). -/
structure V4CharCaption where
  char_caption : String
  centers : List (ℚ × ℚ)
deriving DecidableEq

/-- A caption object: base caption plus per-character captions. -/
structure V4Caption where
  base_caption : String
  char_captions : List V4CharCaption
deriving DecidableEq

/-- The `v4_prompt` object (nai_models.py lines 65-72). -/
structure V4Prompt where
  caption : V4Caption
  use_coords : Bool
  use_order : Bool
deriving DecidableEq

/-- The `v4_negative_prompt` object (nai_models.py lines 73-79). -/
structure V4NegPrompt where
  caption : V4Caption
  legacy_uc : Bool
deriving DecidableEq

/-- One entry of `director_reference_descriptions` (nai_api.py 164-172). -/
structure DirectorDesc where
  caption : V4Caption
  legacy_uc : Bool
deriving DecidableEq

/-- The nested `parameters` dict assembled by `_build_text2image`
(nai_models.py lines 35-108) together with every key that a later stage may
insert; a key that the source only conditionally inserts is an `Option`
field, `none` meaning absent. -/
structure Parameters where
  params_version : ℕ
  width : ℕ
  height : ℕ
  scale : ℚ
  sampler : String
  steps : ℤ
  n_samples : ℕ
  ucPreset : ℕ
  qualityToggle : Bool
  autoSmea : Bool
  dynamic_thresholding : Bool
  controlnet_strength : ℚ
  legacy : Bool
  add_original_image : Bool
  cfg_rescale : ℚ
  noise_schedule : String
  legacy_v3_extend : Bool
  skip_cfg_above_sigma : Option ℚ
  use_coords : Bool
  normalize_reference_strength_multiple : Bool
  use_order : Bool
  legacy_uc : Bool
  seed : ℤ
  characterPrompts : List CharPromptEntry
  negative_prompt : String
  sm : Bool
  sm_dyn : Bool
  v4_prompt : V4Prompt
  v4_negative_prompt : V4NegPrompt
  stream : String
  deliberate_euler_ancestral_bug : Option Bool
  prefer_brownian : Option Bool
  reference_image_multiple : Option (List String)
  reference_information_extracted_multiple : Option (List ℚ)
  reference_strength_multiple : Option (List ℚ)
  director_reference_images : Option (List String)
  director_reference_descriptions : Option (List DirectorDesc)
  director_reference_information_extracted : Option (List ℚ)
  director_reference_strength_values : Option (List ℚ)
  director_reference_secondary_strength_values : Option (List ℚ)
  strength : Option ℚ
  noise : Option ℚ
  image : Option String
  extra_noise_seed : Option ℤ
  color_correct : Option Bool
  mask : Option String
deriving DecidableEq

/-- The top-level payload dict (nai_models.py lines 110-116). -/
structure Payload where
  input : String
  model : String
  action : String
  parameters : Parameters
  use_new_shared_trial : Bool
deriving DecidableEq

/-- nai_models.py lines 9-118: `_build_text2image`, specialised to the
keyword arguments `NovelAIAPI.build_payload` actually passes (the
`reference_*` and `director_*` kwargs are never passed, hence `none`;
`params_version`, `n_samples` and `stream` keep their defaults).  The
`deliberate_euler_ancestral_bug` / `prefer_brownian` keys exist exactly when
the sampler is `k_euler_ancestral` (lines 83-85); `skip_cfg_above_sigma` is
popped when `None` (lines 105-108), i.e. the field stays `none`. -/
def buildText2Image (model prompt negative_prompt : String)
    (width height : ℕ) (scale : ℚ) (sampler : String) (steps : ℤ) (uc_preset : ℕ)
    (quality_toggle auto_smea dyn_thresh : Bool) (controlnet_strength : ℚ)
    (legacy add_original_image : Bool) (cfg_rescale : ℚ) (noise_schedule : String)
    (legacy_v3_extend : Bool) (skip_cfg_above_sigma : Option ℚ)
    (use_coords normalize_ref use_order legacy_uc : Bool)
    (seed : ℤ) (character_prompts : List CharPromptEntry)
    (v4_prompt_positive v4_prompt_negative : List V4CharCaption)
    (sm sm_dyn use_new_shared_trial : Bool) : Payload :=
  { input := prompt
  , model := model
  , action := "generate"
  , use_new_shared_trial := use_new_shared_trial
  , parameters :=
    { params_version := 3
    , width := width
    , height := height
    , scale := scale
    , sampler := sampler
    , steps := steps
    , n_samples := 1
    , ucPreset := uc_preset
    , qualityToggle := quality_toggle
    , autoSmea := auto_smea
    , dynamic_thresholding := dyn_thresh
    , controlnet_strength := controlnet_strength
    , legacy := legacy
    , add_original_image := add_original_image
    , cfg_rescale := cfg_rescale
    , noise_schedule := noise_schedule
    , legacy_v3_extend := legacy_v3_extend
    , skip_cfg_above_sigma := skip_cfg_above_sigma
    , use_coords := use_coords
    , normalize_reference_strength_multiple := normalize_ref
    , use_order := use_order
    , legacy_uc := legacy_uc
    , seed := seed
    , characterPrompts := character_prompts
    , negative_prompt := negative_prompt
    , sm := sm
    , sm_dyn := sm_dyn
    , v4_prompt := ⟨⟨prompt, v4_prompt_positive⟩, use_coords, use_order⟩
    , v4_negative_prompt := ⟨⟨negative_prompt, v4_prompt_negative⟩, legacy_uc⟩
    , stream := "msgpack"
    , deliberate_euler_ancestral_bug :=
        if sampler = "k_euler_ancestral" then some false else none
    , prefer_brownian := if sampler = "k_euler_ancestral" then some true else none
    , reference_image_multiple := none
    , reference_information_extracted_multiple := none
    , reference_strength_multiple := none
    , director_reference_images := none
    , director_reference_descriptions := none
    , director_reference_information_extracted := none
    , director_reference_strength_values := none
    , director_reference_secondary_strength_values := none
    , strength := none
    , noise := none
    , image := none
    , extra_noise_seed := none
    , color_correct := none
    , mask := none } }

/-- nai_models.py lines 121-142: `_build_image2image` on payload values.  The
`image` argument is `none` when the caller did not pass an `image` kwarg; the
update then stores `None` and the required-key check raises.  The
`extra_noise_seed` default chain falls back to the payload seed (the `seed`
kwarg is never passed by callers in this repository). -/
def build_image2image_v (payload : Payload) (image : Option String)
    (strength noise : ℚ) (extra_noise_seed : Option ℤ) (color_correct : Bool) :
    Except String Payload :=
  let params := payload.parameters
  let newParams :=
    { params with
      strength := some strength
      noise := some noise
      image := image
      extra_noise_seed := some (extra_noise_seed.getD params.seed)
      color_correct := some color_correct }
  if image = none then .error "image2image payload requires \x27image\x27"
  else .ok { payload with action := "img2img", parameters := newParams }

/-- nai_models.py lines 145-159: `_build_inpaint` on payload values.  It
forwards its kwargs to `_build_image2image` (so `image` is whatever the
caller passed, `none` if absent), renames the model to the inpainting variant
when the original model name ends in "-curated", attaches the mask, and
forces `add_original_image` to the `add_original_image` kwarg default
`False`. -/
def build_inpaint_v (payload : Payload) (image mask : Option String)
    (strength noise : ℚ) (extra_noise_seed : Option ℤ) (color_correct : Bool) :
    Except String Payload :=
  Except.bind (build_image2image_v payload image strength noise extra_noise_seed color_correct)
    fun np =>
      let np2 :=
        if "-curated".data.isSuffixOf payload.model.data then
          { np with model := payload.model ++ "-inpainting" }
        else np
      let np3 := { np2 with parameters :=
        { np2.parameters with mask := mask, add_original_image := false } }
      if mask = none then .error "inpaint payload requires \x27mask\x27"
      else .ok np3

/-- nai_api.py lines 230-232: `_character_center`. -/
def characterCenter (ch : CharacterPrompt) : ℚ × ℚ :=
  position_to_float ch.position

/-- Python `", ".join`. -/
def joinComma : List String → String
  | [] => ""
  | [s] => s
  | s :: rest => s ++ ", " ++ joinComma rest

/-- nai_api.py lines 80-177: the deterministic part of `build_payload` —
prompt assembly, character-zone handling, the model builder call, the
post-builder `cfg_rescale`/`seed` updates, and the character-reference
(director) block — producing the payload before any img2img/inpaint
wrapping. -/
def assembleBasePayload (parsed : ParsedParams) (model : String)
    (character_reference : Option String) (seed : ℤ) : Payload :=
    let prompt0 := pyStrip parsed.positive_prompt
    let prompt1 := if parsed.furry_mode then "fur dataset, " ++ prompt0 else prompt0
    let quality_tags := get_quality_tags model
    let prompt2 :=
      if parsed.add_quality_tags ∧ quality_tags ≠ "" then prompt1 ++ quality_tags
      else prompt1
    let negative_prompt := match parsed.negative_prompt with
      | some s => if s = "" then get_negative_preset model parsed.negative_preset else s
      | none => get_negative_preset model parsed.negative_preset
    let uc_preset_value := get_uc_preset_value model parsed.negative_preset
    let skip_sigma := get_skip_cfg_above_sigma model
    let characters_exist := ¬ parsed.characters.isEmpty
    let use_zones := parsed.use_character_zones ∧ characters_exist
    let v4_positive :=
      if use_zones then
        parsed.characters.map (fun ch => V4CharCaption.mk ch.positive [characterCenter ch])
      else []
    let v4_negative :=
      if use_zones then
        parsed.characters.map (fun ch => V4CharCaption.mk (ch.negative.getD "") [characterCenter ch])
      else []
    let character_prompts :=
      if use_zones then
        parsed.characters.map (fun ch =>
          CharPromptEntry.mk ch.positive (ch.negative.getD "") (characterCenter ch) true)
      else []
    let extra_positive_parts :=
      if ¬ use_zones ∧ characters_exist then
        (parsed.characters.filter (fun ch => ch.positive ≠ "")).map (fun ch => ch.positive)
      else []
    let extra_negative_parts :=
      if ¬ use_zones ∧ characters_exist then
        parsed.characters.filterMap (fun ch => match ch.negative with
          | some s => if s = "" then none else some s
          | none => none)
      else []
    let prompt3 :=
      if extra_positive_parts ≠ [] then
        (if prompt2 = "" then joinComma extra_positive_parts
         else prompt2 ++ ", " ++ joinComma extra_positive_parts)
      else prompt2
    let negative2 :=
      if extra_negative_parts ≠ [] then
        (if negative_prompt = "" then joinComma extra_negative_parts
         else negative_prompt ++ ", " ++ joinComma extra_negative_parts)
      else negative_prompt
    let payload0 := buildText2Image model prompt3 negative2
      parsed.width parsed.height parsed.guidance parsed.sampler parsed.steps
      uc_preset_value parsed.add_quality_tags false false 1 false true
      parsed.cfg_rescale "native" false (some skip_sigma)
      use_zones false true false seed character_prompts v4_positive v4_negative
      false false true
    let params1 := { payload0.parameters with cfg_rescale := parsed.cfg_rescale, seed := seed }
    let params2 := match character_reference with
      | some cr =>
        if cr = "" then params1
        else
          { params1 with
            director_reference_images := some [cr]
            director_reference_descriptions := some
              [⟨⟨if parsed.style_aware then "character&style" else "character", []⟩, false⟩]
            director_reference_information_extracted := some [1]
            director_reference_strength_values := some [parsed.character_reference_strength]
            director_reference_secondary_strength_values := some
              [max 0 (1 - parsed.character_reference_strength)] }
      | none => params1
    { payload0 with parameters := params2 }

/-- nai_api.py lines 65-199: `NovelAIAPI.build_payload`.  `randSeed` stands
for the value `random.randint(1_000_000_000, 9_999_999_999)` would return; it
is consulted only when `parsed.seed` is absent (line 78).  The mask branch
passes no `image` kwarg to `build_inpaint` (lines 189-197), which is modelled
by the `none` image argument. -/
def build_payload (randSeed : ℤ) (parsed : ParsedParams) (model : String)
    (base_image mask_image character_reference : Option String) :
    Except String (Payload × ℤ) :=
  if model ∉ MODELS then .error ("不支持的模型: " ++ model)
  else
    let seed := match parsed.seed with
      | some s => s
      | none => randSeed
    let payload1 := assembleBasePayload parsed model character_reference seed
    let afterBase : Except String Payload := match base_image with
      | some b =>
        if b = "" then .ok payload1
        else build_image2image_v payload1 (some b) parsed.base_strength parsed.base_noise
          (some seed) false
      | none => .ok payload1
    Except.bind afterBase fun payload2 =>
    let afterMask : Except String Payload := match mask_image with
      | some m =>
        if m = "" then .ok payload2
        else build_inpaint_v payload2 none (some m) parsed.base_strength parsed.base_noise
          (some seed) false
      | none => .ok payload2
    Except.bind afterMask fun payload3 =>
    .ok (payload3, seed)

/-- A `ParsedParams` with zero characters and every flag and tunable at its
parser default (parser.py defaults), with the prompt, furry flag and
quality-tag flag supplied — the configuration named by the round-trip claim. -/
def defaultParsed (prompt : String) (furry aq : Bool) : ParsedParams :=
  { positive_prompt := prompt
  , negative_prompt := none
  , negative_preset := "Heavy"
  , model_name := none
  , furry_mode := furry
  , add_quality_tags := aq
  , base_image := none
  , base_strength := 7/10
  , base_noise := 0
  , width := 832
  , height := 1216
  , steps := 28
  , guidance := 5
  , cfg_rescale := 0
  , seed := none
  , sampler := "k_euler_ancestral"
  , use_character_zones := false
  , characters := []
  , character_reference := none
  , character_reference_strength := 1
  , style_aware := false
  , raw_params := [] }

/-! ## Heap model of `_build_image2image` / `_build_inpaint`

The frame claim (which dictionaries the two wrappers mutate) is about Python
object identity, so here payload dicts and their nested `parameters` dicts
live in an explicit store: a payload object holds a reference to its
parameters object, `deepcopy` allocates fresh references, and in-place
`dict.update` rebinds a reference.  The functional model above describes the
same computations on values. -/

/-- Lookup in a reference store. -/
def refGet {α : Type} (l : List (ℕ × α)) (k : ℕ) : Option α :=
  match l with
  | [] => none
  | (k0, v0) :: rest => if k0 = k then some v0 else refGet rest k

/-- In-place update of a reference store binding. -/
def refSet {α : Type} (l : List (ℕ × α)) (k : ℕ) (v : α) : List (ℕ × α) :=
  match l with
  | [] => [(k, v)]
  | (k0, v0) :: rest => if k0 = k then (k0, v) :: rest else (k0, v0) :: refSet rest k v

/-- A top-level payload dict, with its nested parameters dict by reference. -/
structure PayloadObj where
  input : String
  model : String
  action : String
  paramsRef : ℕ
  use_new_shared_trial : Bool
deriving DecidableEq

/-- The store: payload objects, parameters objects, and the next fresh
reference. -/
structure Heap where
  payloadObjs : List (ℕ × PayloadObj)
  paramObjs : List (ℕ × Parameters)
  nextRef : ℕ
deriving DecidableEq

/-- The `params.update({...})` of `_build_image2image` (lines 128-136)
applied to a parameters value. -/
def i2iParamsUpd (pa : Parameters) (image : Option String) (st no : ℚ)
    (ens : Option ℤ) (cc : Bool) : Parameters :=
  { pa with
    strength := some st
    noise := some no
    image := image
    extra_noise_seed := some (ens.getD pa.seed)
    color_correct := some cc }

/-- nai_models.py lines 121-142 on the heap: `deepcopy` the payload (fresh
parameters object at `nextRef`, fresh payload object at `nextRef + 1`), set
the action, update the fresh parameters in place, then check the required
`image` key (raising leaves the heap as mutated so far).  `none` = a
dangling reference (impossible for well-formed stores). -/
def build_image2image_h (h : Heap) (r : ℕ) (image : Option String) (st no : ℚ)
    (ens : Option ℤ) (cc : Bool) : Option (Heap × Except String ℕ) :=
  match refGet h.payloadObjs r with
  | none => none
  | some po =>
    match refGet h.paramObjs po.paramsRef with
    | none => none
    | some pa =>
      let h1 : Heap :=
        { payloadObjs :=
            (h.nextRef + 1, { po with action := "img2img", paramsRef := h.nextRef })
              :: h.payloadObjs
        , paramObjs := (h.nextRef, i2iParamsUpd pa image st no ens cc) :: h.paramObjs
        , nextRef := h.nextRef + 2 }
      if image = none then some (h1, .error "image2image payload requires \x27image\x27")
      else some (h1, .ok (h.nextRef + 1))

/-- nai_models.py lines 145-159 on the heap: forward the kwargs to
`_build_image2image` (the `image` argument is whatever the caller passed),
read `model` from the ORIGINAL payload object, rename the copy's model when
the original ends in "-curated", set mask and `add_original_image` on the
copy's parameters in place, then check the required `mask` key. -/
def build_inpaint_h (h : Heap) (r : ℕ) (image mask : Option String) (st no : ℚ)
    (ens : Option ℤ) (cc : Bool) : Option (Heap × Except String ℕ) :=
  match build_image2image_h h r image st no ens cc with
  | none => none
  | some (h1, .error e) => some (h1, .error e)
  | some (h1, .ok r2) =>
    match refGet h1.payloadObjs r, refGet h1.payloadObjs r2 with
    | some po0, some po2 =>
      let po2b :=
        if "-curated".data.isSuffixOf po0.model.data then
          { po2 with model := po0.model ++ "-inpainting" }
        else po2
      let h2 := { h1 with payloadObjs := refSet h1.payloadObjs r2 po2b }
      match refGet h2.paramObjs po2b.paramsRef with
      | some pa2 =>
        let pa2b := { pa2 with mask := mask, add_original_image := false }
        let h3 := { h2 with paramObjs := refSet h2.paramObjs po2b.paramsRef pa2b }
        if mask = none then some (h3, .error "inpaint payload requires \x27mask\x27")
        else some (h3, .ok r2)
      | none => none
    | _, _ => none

/-- A sample parameters object for concrete heap instantiations. -/
def exParams : Parameters :=
  (buildText2Image "m" "p" "n" 832 1216 5 "k_euler" 28 0 false false false 1
    false true 0 "native" false none false false true false 7 [] [] [] false
    false true).parameters

/-- A sample payload object whose parameters live at reference 1. -/
def exPayloadObj : PayloadObj :=
  { input := "p", model := "m", action := "generate", paramsRef := 1
  , use_new_shared_trial := true }

/-- A sample store holding the payload at reference 0. -/
def exHeap : Heap :=
  { payloadObjs := [(0, exPayloadObj)], paramObjs := [(1, exParams)], nextRef := 2 }

/-- The store after `_build_image2image` on `exHeap`: a fresh parameters
object at 2 and a fresh payload object at 3; the originals untouched. -/
def exHeapAfterI2I : Heap :=
  { payloadObjs :=
      (3, { exPayloadObj with action := "img2img", paramsRef := 2 }) :: exHeap.payloadObjs
  , paramObjs :=
      (2, i2iParamsUpd exParams (some "img") (7/10) 0 none false) :: exHeap.paramObjs
  , nextRef := 4 }

/-! ## queue_manager.py — a small-step interleaving model

`RequestQueue` runs on a single-threaded cooperative scheduler.  The model
makes every await point of the worker coroutine (queue_manager.py lines
52-74) an explicit phase, and lets the environment interleave producer
enqueues, the body of `stop()` (lines 41-47: clear `_running`, then put the
sentinel — atomic w.r.t. the worker because `put` on an unbounded queue does
not yield), and the resumption of `stop()`s `await self._task` (enabled only
once the worker coroutine has returned).  Items are naturals; the sentinel
`None` is `none`.  The handler is abstracted by a predicate `raises` saying
which items make it throw, and `hasErrCb` says whether an error callback was
supplied; `handled`/`errored` record the invocations in order.
`enqueuedLog` and `discarded` are ghost fields (every item ever enqueued;
items dequeued unhandled by the drain loop). -/

/-- The worker coroutine's control point. -/
inductive WorkerPhase where
  | loopCheck
  | awaitGet
  | handling (item : ℕ)
  | afterHandle
  | sleeping
  | draining
  | exited
deriving DecidableEq

/-- The queue system state. -/
structure QueueState where
  buffer : List (Option ℕ)
  running : Bool
  phase : WorkerPhase
  handled : List ℕ
  errored : List ℕ
  enqueuedLog : List ℕ
  discarded : List ℕ
  stopRequested : Bool
  stopReturned : Bool
deriving DecidableEq

/-- Environment and scheduler actions. -/
inductive QueueAction where
  | enqueue (item : ℕ)
  | callStop
  | stopReturn
  | workerStep
deriving DecidableEq

/-- One step of the worker coroutine (queue_manager.py lines 52-74):
`loopCheck` is the `while self._running` test; `awaitGet` the `queue.get()`
(a no-op while the buffer is empty; the sentinel breaks to the drain code;
an item moves to `handling`); `handling` performs the handler call with its
try/except (the error callback fires when the handler raises and a callback
exists) and `task_done`; `afterHandle` checks `queue.empty()` and sleeps
only when more work is buffered; `draining` is the loop of lines 70-74
(discard until the sentinel or emptiness); `exited` is the returned
coroutine. -/
def workerStepFn (raises : ℕ → Bool) (hasErrCb : Bool) (s : QueueState) : QueueState :=
  match s.phase with
  | .loopCheck =>
    if s.running then { s with phase := .awaitGet } else { s with phase := .draining }
  | .awaitGet =>
    match s.buffer with
    | [] => s
    | none :: rest => { s with buffer := rest, phase := .draining }
    | some i :: rest => { s with buffer := rest, phase := .handling i }
  | .handling i =>
    { s with
      phase := .afterHandle,
      handled := s.handled ++ [i],
      errored := if raises i && hasErrCb then s.errored ++ [i] else s.errored }
  | .afterHandle =>
    if s.buffer.isEmpty then { s with phase := .loopCheck } else { s with phase := .sleeping }
  | .sleeping => { s with phase := .loopCheck }
  | .draining =>
    match s.buffer with
    | [] => { s with phase := .exited }
    | none :: _ => { s with buffer := s.buffer.tail, phase := .exited }
    | some i :: rest => { s with buffer := rest, discarded := s.discarded ++ [i] }
  | .exited => s

/-- One transition of the whole system. -/
def qstep (raises : ℕ → Bool) (hasErrCb : Bool) (s : QueueState) :
    QueueAction → QueueState
  | .enqueue i =>
    { s with buffer := s.buffer ++ [some i], enqueuedLog := s.enqueuedLog ++ [i] }
  | .callStop =>
    { s with running := false, buffer := s.buffer ++ [none], stopRequested := true }
  | .stopReturn =>
    if s.phase = .exited ∧ s.stopRequested then { s with stopReturned := true } else s
  | .workerStep => workerStepFn raises hasErrCb s

/-- The state right after `start()` on a fresh queue: empty channel, running
flag set, worker at the loop head. -/
def initQueue : QueueState :=
  { buffer := []
  , running := true
  , phase := .loopCheck
  , handled := []
  , errored := []
  , enqueuedLog := []
  , discarded := []
  , stopRequested := false
  , stopReturned := false }

/-- Run a schedule of actions. -/
def runQueue (raises : ℕ → Bool) (hasErrCb : Bool) (acts : List QueueAction)
    (s : QueueState) : QueueState :=
  acts.foldl (fun st a => qstep raises hasErrCb st a) s

/-- The item currently inside a handler call, if any. -/
def inFlight (s : QueueState) : List ℕ :=
  match s.phase with
  | .handling i => [i]
  | _ => []

/-- The proper items (non-sentinels) of the channel, in order. -/
def bufItems (b : List (Option ℕ)) : List ℕ := b.filterMap id

/-- Whether the worker has left the main loop. -/
def inDrain (s : QueueState) : Prop :=
  s.phase = .draining ∨ s.phase = .exited

/-- The run invariant: every enqueued item is (in order) handled, in flight,
discarded by the drain loop, or still buffered; `stop()` can only have
returned once the worker exited; and nothing is discarded before the worker
leaves the main loop. -/
def QueueInv (s : QueueState) : Prop :=
  s.enqueuedLog = s.handled ++ inFlight s ++ s.discarded ++ bufItems s.buffer
  ∧ (s.stopReturned = true → s.phase = .exited)
  ∧ (¬ inDrain s → s.discarded = [])

/-! ## Theorems -/

theorem col_map_get_eq_claim (c : Char) :
    col_map_get c = (claimLetterX c).getD (5/10) := by
  unfold col_map_get claimLetterX
  split_ifs <;> rfl

theorem row_map_get_eq_claim (c : Char) :
    row_map_get c = (claimDigitY c).getD (5/10) := by
  unfold row_map_get claimDigitY
  split_ifs <;> rfl

/-- Claim C1, counterexample: the input "a1" is outside the 25-code valid set
(`CHARACTER_POSITIONS` holds only uppercase codes), yet `position_to_float`
returns (0.1, 0.1), not the center (0.5, 0.5) that the claim requires for
every input outside the valid set. -/
theorem C1_counterexample :
    "a1" ∉ CHARACTER_POSITIONS
    ∧ position_to_float "a1" = (1/10, 1/10)
    ∧ ((1:ℚ)/10, (1:ℚ)/10) ≠ (5/10, 5/10) := by
  refine ⟨by decide, ?_, by norm_num⟩
  simp [position_to_float, col_map_get, row_map_get,
    show Char.toUpper 'a' = 'A' from rfl]

/-- Claim C1 (amended): `position_to_float` is total; every input shorter than
2 characters yields (0.5, 0.5); each of the 25 valid codes (letter A..E =
chr 65..69, digit 1..5 = chr 49..53) yields exactly the documented pair
(0.1 + 0.2*i, 0.1 + 0.2*j); and for any input of length at least 2 the two
axes are resolved independently — the first character is uppercased and looked
up in the letter table, the second in the digit table, each defaulting to 0.5
on a miss, with all further characters ignored (so inputs outside the valid
set, e.g. lowercase or overlong codes, need not map to the center). -/
theorem C1_amended :
    (∀ s : String, s.length < 2 → position_to_float s = (5/10, 5/10))
    ∧ (∀ i j : ℕ, i < 5 → j < 5 →
        position_to_float (String.mk [Char.ofNat (65 + i), Char.ofNat (49 + j)])
          = ((1 + 2 * i : ℚ)/10, (1 + 2 * j : ℚ)/10))
    ∧ (∀ c0 c1 : Char, ∀ rest : List Char,
        position_to_float (String.mk (c0 :: c1 :: rest))
          = ((claimLetterX c0.toUpper).getD (5/10), (claimDigitY c1).getD (5/10))) := by
  refine ⟨?_, ?_, ?_⟩
  · intro s hs
    obtain ⟨data⟩ := s
    match data with
    | [] => rfl
    | [c] => rfl
    | c0 :: c1 :: rest => exact absurd hs (by simp [String.length])
  · intro i j hi hj
    interval_cases i <;> interval_cases j <;>
      simp [position_to_float, col_map_get, row_map_get] <;> norm_num
  · intro c0 c1 rest
    simp only [position_to_float, col_map_get_eq_claim, row_map_get_eq_claim]

/-- Claim C1, witness: the amended theorem applied at concrete inputs — the
empty string maps to the center, and the valid code "A1" maps to (0.1, 0.1). -/
theorem C1_witness :
    position_to_float "" = (5/10, 5/10)
    ∧ position_to_float (String.mk [Char.ofNat 65, Char.ofNat 49])
        = ((1 + 2 * 0 : ℚ)/10, (1 + 2 * 0 : ℚ)/10) := by
  exact ⟨C1_amended.1 "" (by decide),
    by simpa using C1_amended.2.1 0 0 (by norm_num) (by norm_num)⟩

/-! ### Parser inversion lemmas -/

theorem exceptBind_ok {ε α β : Type _} {x : Except ε α} {f : α → Except ε β} {b : β}
    (h : Except.bind x f = .ok b) : ∃ a, x = .ok a ∧ f a = .ok b := by
  cases x with
  | error e => exact absurd h (by simp [Except.bind])
  | ok a => exact ⟨a, rfl, h⟩

theorem parsePairsList_ok {pairs : List (String × String)} {p : ParsedParams}
    (h : parsePairsList pairs = .ok p) :
    ∃ a, collectArgs pairs = .ok a ∧ p = finalizeParams a := by
  unfold parsePairsList at h
  cases hc : collectArgs pairs with
  | error e => rw [hc] at h; exact absurd h (by simp [Except.map])
  | ok a =>
    rw [hc] at h
    simp only [Except.map, Except.ok.injEq] at h
    exact ⟨a, rfl, h.symm⟩

theorem parse_message_ok {msg : String} {p : ParsedParams}
    (h : parse_generation_message msg = .ok p) :
    ∃ pairs, parsePairsList pairs = .ok p := by
  unfold parse_generation_message at h
  dsimp only at h
  repeat' split at h
  all_goals first
    | exact absurd h (by simp)
    | exact ⟨_, h⟩

theorem collectArgs_steps {pairs : List (String × String)} {a : Args}
    (h : collectArgs pairs = .ok a) :
    ∃ gc, routePairs pairs [] (fun _ => none) = .ok gc
      ∧ ∃ steps0, parse_int_v (dictGet gc.1 "步数") "步数" (some 28) (some 1) (some 28) = .ok steps0
        ∧ a.steps = pyOrInt steps0 28 := by
  unfold collectArgs at h
  obtain ⟨gc, hroute, h⟩ := exceptBind_ok h
  try dsimp only at h
  rcases hpp : dictGet gc.1 "正面词条" with _ | pp
  · simp only [hpp] at h; exact absurd h (by simp)
  simp only [hpp] at h
  split at h
  · exact absurd h (by simp)
  obtain ⟨furry, hf, h⟩ := exceptBind_ok h
  try dsimp only at h
  obtain ⟨addq, hq, h⟩ := exceptBind_ok h
  try dsimp only at h
  obtain ⟨bstr, hbs, h⟩ := exceptBind_ok h
  try dsimp only at h
  obtain ⟨bnoise, hbn, h⟩ := exceptBind_ok h
  try dsimp only at h
  rcases hres : RESOLUTION_MAP ((dictGet gc.1 "分辨率").getD "竖图") with _ | wh
  · simp only [hres] at h; exact absurd h (by simp)
  simp only [hres] at h
  obtain ⟨steps0, hsteps, h⟩ := exceptBind_ok h
  try dsimp only at h
  obtain ⟨guid, hg, h⟩ := exceptBind_ok h
  try dsimp only at h
  obtain ⟨cfg, hcf, h⟩ := exceptBind_ok h
  try dsimp only at h
  obtain ⟨seed, hsd, h⟩ := exceptBind_ok h
  try dsimp only at h
  split at h
  · exact absurd h (by simp)
  obtain ⟨ucz, hu, h⟩ := exceptBind_ok h
  try dsimp only at h
  split at h
  · exact absurd h (by simp)
  obtain ⟨chars, hch, h⟩ := exceptBind_ok h
  try dsimp only at h
  obtain ⟨crefs, hcs, h⟩ := exceptBind_ok h
  try dsimp only at h
  obtain ⟨style, hst, h⟩ := exceptBind_ok h
  try dsimp only at h
  simp only [Except.ok.injEq] at h
  exact ⟨gc, hroute, steps0, hsteps, by rw [← h]⟩

theorem parse_int_v_steps_ok {v : Option String} {o : Option ℤ}
    (h : parse_int_v v "步数" (some 28) (some 1) (some 28) = .ok o) :
    ∃ n, o = some n ∧ 1 ≤ n ∧ n ≤ 28 := by
  unfold parse_int_v int_check at h
  try dsimp only at h
  repeat' split at h
  all_goals first
    | exact Except.noConfusion h
    | (simp only [Except.ok.injEq] at h; exact ⟨_, h.symm, by omega, by omega⟩)

theorem dictGet_dictSet_ne {d : List (String × String)} {k0 k v : String} (hne : k0 ≠ k) :
    dictGet (dictSet d k0 v) k = dictGet d k := by
  induction d with
  | nil => simp [dictSet, dictGet, hne]
  | cons hd tl ih =>
    obtain ⟨k1, v1⟩ := hd
    by_cases hk : k1 = k0
    · subst hk
      simp [dictSet, dictGet, hne]
    · simp only [dictSet, if_neg hk, dictGet]
      split
      · rfl
      · exact ih

theorem routePairs_lookup {pairs : List (String × String)} (k : String) :
    ∀ {g0 : List (String × String)} {c0 : ℕ → Option CharEntry}
      {gc : List (String × String) × (ℕ → Option CharEntry)},
      routePairs pairs g0 c0 = .ok gc → (∀ kv ∈ pairs, kv.1 ≠ k) →
      dictGet gc.1 k = dictGet g0 k := by
  induction pairs with
  | nil =>
    intro g0 c0 gc h _
    unfold routePairs at h
    simp only [Except.ok.injEq] at h
    rw [← h]
  | cons hd tl ih =>
    intro g0 c0 gc h hk
    obtain ⟨kh, vh⟩ := hd
    unfold routePairs at h
    split at h
    · exact Except.noConfusion h
    · exact (ih h (fun kv hkv => hk kv (List.mem_cons_of_mem _ hkv)))
    · split at h
      · have hne : kh ≠ k := hk (kh, vh) (List.mem_cons_self _ _)
        rw [ih h (fun kv hkv => hk kv (List.mem_cons_of_mem _ hkv))]
        exact dictGet_dictSet_ne hne
      · exact Except.noConfusion h

/-- Claim C3: for every command string accepted by `parse_generation_message`
whose result has fewer than 2 characters, the returned `ParsedParams` has
`use_character_zones = false`, even if the command explicitly requested
zoning (parser.py lines 259-260 force it after character construction). -/
theorem C3_zones_forced (msg : String) (p : ParsedParams)
    (h : parse_generation_message msg = .ok p) (hlen : p.characters.length < 2) :
    p.use_character_zones = false := by
  obtain ⟨pairs, hp⟩ := parse_message_ok h
  obtain ⟨a, hca, rfl⟩ := parsePairsList_ok hp
  dsimp only [finalizeParams] at hlen ⊢
  rw [if_pos (by omega)]

/-- Claim C3, witness: a concrete command with one character and an explicit
affirmative zone flag parses successfully and still has the flag forced off;
the proof applies `C3_zones_forced` at that input. -/
theorem C3_witness :
    ∃ p, parse_generation_message
        "/nai 正面词条:<1girl> 角色1正面词条:<cat> 角色是否分区:<是>" = .ok p
      ∧ p.use_character_zones = false := by
  have h1 : (parse_generation_message
      "/nai 正面词条:<1girl> 角色1正面词条:<cat> 角色是否分区:<是>").map
      (fun q => q.characters.length) = .ok 1 := by rfl
  rcases hp : parse_generation_message
      "/nai 正面词条:<1girl> 角色1正面词条:<cat> 角色是否分区:<是>" with e | p
  · rw [hp] at h1; exact Except.noConfusion h1
  · refine ⟨p, rfl, C3_zones_forced _ p hp ?_⟩
    rw [hp] at h1
    simp only [Except.map, Except.ok.injEq] at h1
    omega

/-- Claim C4: a successfully parsed command never carries both a base image
and a character reference (lines 262-264 discard the reference when a base
image is present), and on a concrete command supplying both non-empty slots
parsing succeeds with the base image retained and the reference dropped. -/
theorem C4_reference_discarded :
    (∀ msg p, parse_generation_message msg = .ok p →
      p.base_image = none ∨ p.character_reference = none)
    ∧ (parse_generation_message "/nai 正面词条:<1girl> 底图:<img1> 角色参考:<img2>").map
        (fun p => (p.base_image, p.character_reference, p.positive_prompt))
        = .ok (some "img1", none, "1girl") := by
  constructor
  · intro msg p h
    obtain ⟨pairs, hp⟩ := parse_message_ok h
    obtain ⟨a, hca, rfl⟩ := parsePairsList_ok hp
    dsimp only [finalizeParams]
    by_cases hb : a.base_image.isSome
    · right
      by_cases hc : a.character_reference_raw.isSome
      · rw [if_pos ⟨hc, hb⟩]
      · rw [if_neg (fun hand => hc hand.1)]
        exact Option.not_isSome_iff_eq_none.mp hc
    · left
      exact Option.not_isSome_iff_eq_none.mp hb
  · rfl

/-- Claim C4, witness: `C4_reference_discarded` applied at a concrete
command that supplies both slots. -/
theorem C4_witness :
    ∃ p, parse_generation_message "/nai 正面词条:<flower> 底图:<b64> 角色参考:<c64>" = .ok p
      ∧ (p.base_image = none ∨ p.character_reference = none) := by
  have h1 : (parse_generation_message
      "/nai 正面词条:<flower> 底图:<b64> 角色参考:<c64>").map
      (fun q => q.positive_prompt) = .ok "flower" := by rfl
  rcases hp : parse_generation_message
      "/nai 正面词条:<flower> 底图:<b64> 角色参考:<c64>" with e | p
  · rw [hp] at h1; exact Except.noConfusion h1
  · exact ⟨p, rfl, C4_reference_discarded.1 _ p hp⟩

/-- Claim C8, counterexample: the command "/nai 步数:<30>" has a step-count
value that parses to 30 > 28, yet `parse_generation_message` raises the
missing-prompt error, not an error naming the step-count field and bound —
earlier field validation masks the step-count error, refuting the claim's
universal quantification. -/
theorem C8_counterexample :
    pyInt? "30" = some 30
    ∧ (28 : ℤ) < 30
    ∧ parse_generation_message "/nai 步数:<30>" = .error "未填写提示词"
    ∧ "未填写提示词" ≠ "步数参数不能大于28"
    ∧ "未填写提示词" ≠ "步数参数不能小于1" :=
  ⟨by rfl, by norm_num, by rfl, by decide, by decide⟩

/-- Claim C8 (amended): every accepted command has steps in [1, 28]; steps
default to 28 when the key is absent; once step-count validation is reached
(a supplied value that parses as an integer), a value above 28 or below 1
raises the ParseError naming the step-count field and the violated bound;
and the concrete input "/nai 正面词条:<1girl> 步数:<30>" fails with exactly the
step-count-range error.  (The original claim fails only because an error in
an earlier-validated field, e.g. a missing prompt, can mask the step error.) -/
theorem C8_amended :
    (∀ msg p, parse_generation_message msg = .ok p → 1 ≤ p.steps ∧ p.steps ≤ 28)
    ∧ (∀ pairs p, parsePairsList pairs = .ok p →
        (∀ kv ∈ pairs, kv.1 ≠ "步数") → p.steps = 28)
    ∧ (∀ v n, pyInt? v = some n → 28 < n →
        parse_int_v (some v) "步数" (some 28) (some 1) (some 28)
          = .error "步数参数不能大于28")
    ∧ (∀ v n, pyInt? v = some n → n < 1 →
        parse_int_v (some v) "步数" (some 28) (some 1) (some 28)
          = .error "步数参数不能小于1")
    ∧ parse_generation_message "/nai 正面词条:<1girl> 步数:<30>"
        = .error "步数参数不能大于28" := by
  refine ⟨?_, ?_, ?_, ?_, by rfl⟩
  · intro msg p h
    obtain ⟨pairs, hp⟩ := parse_message_ok h
    obtain ⟨a, hca, rfl⟩ := parsePairsList_ok hp
    obtain ⟨gc, hroute, steps0, hsteps, hval⟩ := collectArgs_steps hca
    obtain ⟨n, rfl, h1, h2⟩ := parse_int_v_steps_ok hsteps
    dsimp only [finalizeParams]
    rw [hval, show pyOrInt (some n) 28 = if n = 0 then 28 else n from rfl]
    split
    all_goals omega
  · intro pairs p hp hk
    obtain ⟨a, hca, rfl⟩ := parsePairsList_ok hp
    obtain ⟨gc, hroute, steps0, hsteps, hval⟩ := collectArgs_steps hca
    have hlookup : dictGet gc.1 "步数" = none := by
      rw [routePairs_lookup "步数" hroute hk]; rfl
    rw [hlookup] at hsteps
    simp only [parse_int_v, Except.ok.injEq] at hsteps
    dsimp only [finalizeParams]
    rw [hval, ← hsteps]
    rfl
  · intro v n hv hgt
    have hdata : pyStripList v.data ≠ [] := by
      intro he
      unfold pyInt? at hv
      rw [he] at hv
      simp at hv
    have hne : pyStrip v ≠ "" := by
      intro he
      exact hdata (congrArg String.data he)
    unfold parse_int_v
    dsimp only
    rw [if_neg hne]
    simp only [hv]
    unfold int_check
    dsimp only
    rw [if_neg (by omega), if_pos hgt]
    rfl
  · intro v n hv hlt
    have hdata : pyStripList v.data ≠ [] := by
      intro he
      unfold pyInt? at hv
      rw [he] at hv
      simp at hv
    have hne : pyStrip v ≠ "" := by
      intro he
      exact hdata (congrArg String.data he)
    unfold parse_int_v
    dsimp only
    rw [if_neg hne]
    simp only [hv]
    unfold int_check
    dsimp only
    rw [if_pos hlt]
    rfl

/-- Claim C8, witness: `C8_amended` applied at the concrete value "30". -/
theorem C8_witness :
    parse_int_v (some "30") "步数" (some 28) (some 1) (some 28)
      = .error "步数参数不能大于28" :=
  C8_amended.2.2.1 "30" 30 (by rfl) (by norm_num)

/-! ### Payload compiler theorems -/

theorem quality_tags_ne_empty {model : String} (hm : model ∈ MODELS) :
    get_quality_tags model ≠ "" := by
  fin_cases hm <;> decide

/-- Claim C5: for each supported model, compiling a `ParsedParams` with zero
characters, default flags, no base image, mask, or reference yields an `ok`
payload whose action is "generate", whose input prompt is the (pre-stripped)
positive prompt with the furry tag prepended exactly once when `furry_mode`
is set and the model's quality tags appended exactly once when
`add_quality_tags` is set; with no seed supplied the returned seed is the
random draw, a 10-digit integer.  (`randSeed` models the value
`random.randint(1_000_000_000, 9_999_999_999)` returns, whence the range
hypothesis; the parser always produces stripped prompts, whence `ht`.) -/
theorem C5_generate_roundtrip (model prompt : String) (furry aq : Bool) (randSeed : ℤ)
    (hm : model ∈ MODELS) (ht : pyStrip prompt = prompt)
    (hr : 1000000000 ≤ randSeed ∧ randSeed ≤ 9999999999) :
    ∃ p, build_payload randSeed (defaultParsed prompt furry aq) model none none none
        = .ok (p, randSeed)
      ∧ p.action = "generate"
      ∧ p.input = (if furry then "fur dataset, " ++ prompt else prompt)
          ++ (if aq then get_quality_tags model else "")
      ∧ 1000000000 ≤ randSeed ∧ randSeed ≤ 9999999999 := by
  have hqt := quality_tags_ne_empty hm
  unfold build_payload
  rw [if_neg (not_not_intro hm)]
  dsimp only [Except.bind]
  refine ⟨_, rfl, ?_, ?_, hr.1, hr.2⟩
  · rfl
  · unfold assembleBasePayload
    dsimp only [defaultParsed]
    rcases furry <;> rcases aq <;>
      simp [buildText2Image, ht, hqt, joinComma]

/-- Claim C5, witness: `C5_generate_roundtrip` at nai-diffusion-3 with both
flags on and a concrete in-range random draw. -/
theorem C5_witness :
    ∃ p, build_payload 1234567890 (defaultParsed "1girl" true true)
        "nai-diffusion-3" none none none = .ok (p, 1234567890)
      ∧ p.action = "generate"
      ∧ p.input = (if true then "fur dataset, " ++ "1girl" else "1girl")
          ++ (if true then get_quality_tags "nai-diffusion-3" else "")
      ∧ (1000000000 : ℤ) ≤ 1234567890 ∧ (1234567890 : ℤ) ≤ 9999999999 :=
  C5_generate_roundtrip "nai-diffusion-3" "1girl" true true 1234567890
    (by decide) (by rfl) (by norm_num)

theorem i2i_seed {pl : Payload} {img : Option String} {st no : ℚ}
    {ens : Option ℤ} {cc : Bool} {q : Payload}
    (h : build_image2image_v pl img st no ens cc = .ok q) :
    q.parameters.seed = pl.parameters.seed := by
  unfold build_image2image_v at h
  split at h
  · exact Except.noConfusion h
  · simp only [Except.ok.injEq] at h
    rw [← h]

theorem inpaint_seed {pl : Payload} {img msk : Option String} {st no : ℚ}
    {ens : Option ℤ} {cc : Bool} {q : Payload}
    (h : build_inpaint_v pl img msk st no ens cc = .ok q) :
    q.parameters.seed = pl.parameters.seed := by
  unfold build_inpaint_v at h
  obtain ⟨np, hnp, h⟩ := exceptBind_ok h
  dsimp only at h
  split at h
  · exact Except.noConfusion h
  · simp only [Except.ok.injEq] at h
    rw [← h]
    have := i2i_seed hnp
    split <;> exact this

theorem assembleBasePayload_seed (parsed : ParsedParams) (model : String)
    (c : Option String) (seed : ℤ) :
    (assembleBasePayload parsed model c seed).parameters.seed = seed := by
  unfold assembleBasePayload
  rcases c with _ | cs
  · rfl
  · dsimp only
    split <;> rfl

/-- Claim C6: with an explicit seed, `build_payload` ignores the random draw
entirely — two invocations that differ only in the draw produce identical
results, the returned seed is `params.seed`, and the payload's seed
parameter equals the returned seed. -/
theorem C6_seed_deterministic (parsed : ParsedParams) (model : String)
    (b m c : Option String) (r1 r2 s : ℤ) (hs : parsed.seed = some s) :
    build_payload r1 parsed model b m c = build_payload r2 parsed model b m c
    ∧ (∀ p rs, build_payload r1 parsed model b m c = .ok (p, rs) →
        rs = s ∧ p.parameters.seed = s) := by
  constructor
  · unfold build_payload
    rw [hs]
  · intro p rs h
    by_cases hm : model ∉ MODELS
    · unfold build_payload at h
      rw [if_pos hm] at h
      exact Except.noConfusion h
    unfold build_payload at h
    rw [if_neg hm, hs] at h
    dsimp only at h
    obtain ⟨p2, hb, h⟩ := exceptBind_ok h
    try dsimp only at h
    obtain ⟨p3, hmk, h⟩ := exceptBind_ok h
    try dsimp only at h
    simp only [Except.ok.injEq, Prod.mk.injEq] at h
    obtain ⟨hp, hrs⟩ := h
    have h1seed : p2.parameters.seed = s := by
      rcases b with _ | bs
      · simp only [Except.ok.injEq] at hb
        rw [← hb]
        exact assembleBasePayload_seed ..
      · try dsimp only at hb
        split at hb
        · simp only [Except.ok.injEq] at hb
          rw [← hb]
          exact assembleBasePayload_seed ..
        · rw [i2i_seed hb]
          exact assembleBasePayload_seed ..
    have h3seed : p3.parameters.seed = s := by
      rcases m with _ | ms
      · simp only [Except.ok.injEq] at hmk
        rw [← hmk]
        exact h1seed
      · try dsimp only at hmk
        split at hmk
        · simp only [Except.ok.injEq] at hmk
          rw [← hmk]
          exact h1seed
        · rw [inpaint_seed hmk]
          exact h1seed
    exact ⟨hrs.symm, by rw [← hp]; exact h3seed⟩

/-- Claim C6, witness: `C6_seed_deterministic` at a concrete `ParsedParams`
with explicit seed 42 and two different random draws. -/
theorem C6_witness :
    build_payload 111 { defaultParsed "1girl" false false with seed := some 42 }
        "nai-diffusion-3" none none none
      = build_payload 222 { defaultParsed "1girl" false false with seed := some 42 }
        "nai-diffusion-3" none none none
    ∧ (∀ p rs, build_payload 111 { defaultParsed "1girl" false false with seed := some 42 }
          "nai-diffusion-3" none none none = .ok (p, rs) →
        rs = 42 ∧ p.parameters.seed = 42) :=
  C6_seed_deterministic _ "nai-diffusion-3" none none none 111 222 42 rfl

/-! ### Request queue theorems -/

theorem qstep_inv (raises : ℕ → Bool) (cb : Bool) (s : QueueState) (a : QueueAction)
    (h : QueueInv s) : QueueInv (qstep raises cb s a) := by
  obtain ⟨hlog, hret, hdisc⟩ := h
  cases a with
  | enqueue i =>
    dsimp only [qstep]
    refine ⟨?_, fun hsr => hret hsr, fun hnd => hdisc hnd⟩
    show s.enqueuedLog ++ [i]
      = s.handled ++ inFlight s ++ s.discarded ++ bufItems (s.buffer ++ [some i])
    rw [hlog]
    simp [bufItems, List.filterMap_append, List.append_assoc]
  | callStop =>
    dsimp only [qstep]
    refine ⟨?_, fun hsr => hret hsr, fun hnd => hdisc hnd⟩
    show s.enqueuedLog
      = s.handled ++ inFlight s ++ s.discarded ++ bufItems (s.buffer ++ [none])
    rw [hlog]
    simp [bufItems, List.filterMap_append]
  | stopReturn =>
    dsimp only [qstep]
    split
    · rename_i hcond
      exact ⟨hlog, fun _ => hcond.1, fun hnd => hdisc hnd⟩
    · exact ⟨hlog, hret, hdisc⟩
  | workerStep =>
    dsimp only [qstep]
    cases hp : s.phase with
    | loopCheck =>
      have hd0 : s.discarded = [] := hdisc (by simp [inDrain, hp])
      have hsr : s.stopReturned = true → False := fun hx => by
        rw [hp] at hret; exact absurd (hret hx) (by simp)
      simp only [workerStepFn, hp]
      simp only [inFlight, hp] at hlog
      split
      · exact ⟨by simpa [inFlight] using hlog, fun hx => absurd hx hsr, fun _ => hd0⟩
      · exact ⟨by simpa [inFlight] using hlog, fun hx => absurd hx hsr,
          fun hnd => absurd (Or.inl rfl) hnd⟩
    | awaitGet =>
      have hd0 : s.discarded = [] := hdisc (by simp [inDrain, hp])
      have hsr : s.stopReturned = true → False := fun hx => by
        rw [hp] at hret; exact absurd (hret hx) (by simp)
      simp only [workerStepFn, hp]
      simp only [inFlight, hp] at hlog
      rcases hb : s.buffer with _ | ⟨o, rest⟩
      · dsimp only
        refine ⟨?_, hret, hdisc⟩
        simp only [inFlight, hp]
        exact hlog
      · rcases o with _ | i
        · refine ⟨?_, fun hx => absurd hx hsr, fun _ => hd0⟩
          rw [hb] at hlog
          simpa [inFlight, bufItems] using hlog
        · refine ⟨?_, fun hx => absurd hx hsr, fun _ => hd0⟩
          rw [hb, hd0] at hlog
          simpa [inFlight, bufItems, List.append_assoc, hd0] using hlog
    | handling i =>
      have hd0 : s.discarded = [] := hdisc (by simp [inDrain, hp])
      have hsr : s.stopReturned = true → False := fun hx => by
        rw [hp] at hret; exact absurd (hret hx) (by simp)
      simp only [workerStepFn, hp]
      simp only [inFlight, hp] at hlog
      refine ⟨?_, fun hx => absurd hx hsr, fun _ => hd0⟩
      show s.enqueuedLog = (s.handled ++ [i]) ++ inFlight { s with
        phase := WorkerPhase.afterHandle,
        handled := s.handled ++ [i],
        errored := if raises i && cb then s.errored ++ [i] else s.errored }
        ++ s.discarded ++ bufItems s.buffer
      rw [hlog]
      simp [inFlight, List.append_assoc]
    | afterHandle =>
      have hd0 : s.discarded = [] := hdisc (by simp [inDrain, hp])
      have hsr : s.stopReturned = true → False := fun hx => by
        rw [hp] at hret; exact absurd (hret hx) (by simp)
      simp only [workerStepFn, hp]
      simp only [inFlight, hp] at hlog
      split
      · exact ⟨by simpa [inFlight] using hlog, fun hx => absurd hx hsr, fun _ => hd0⟩
      · exact ⟨by simpa [inFlight] using hlog, fun hx => absurd hx hsr, fun _ => hd0⟩
    | sleeping =>
      have hd0 : s.discarded = [] := hdisc (by simp [inDrain, hp])
      have hsr : s.stopReturned = true → False := fun hx => by
        rw [hp] at hret; exact absurd (hret hx) (by simp)
      simp only [workerStepFn, hp]
      simp only [inFlight, hp] at hlog
      exact ⟨by simpa [inFlight] using hlog, fun hx => absurd hx hsr, fun _ => hd0⟩
    | draining =>
      have hsr : s.stopReturned = true → False := fun hx => by
        rw [hp] at hret; exact absurd (hret hx) (by simp)
      simp only [workerStepFn, hp]
      simp only [inFlight, hp] at hlog
      rcases hb : s.buffer with _ | ⟨o, rest⟩
      · refine ⟨?_, fun hx => absurd hx hsr, fun hnd => absurd (Or.inr rfl) hnd⟩
        rw [hb] at hlog
        simpa [inFlight] using hlog
      · rcases o with _ | i
        · refine ⟨?_, fun hx => absurd hx hsr, fun hnd => absurd (Or.inr rfl) hnd⟩
          rw [hb] at hlog
          simpa [inFlight, bufItems] using hlog
        · refine ⟨?_, fun hx => absurd hx hsr, fun hnd => absurd (Or.inl rfl) hnd⟩
          rw [hb] at hlog
          simpa [inFlight, bufItems, List.append_assoc] using hlog
    | exited =>
      simp only [workerStepFn, hp]
      exact ⟨hlog, hret, hdisc⟩

theorem runQueue_inv (raises : ℕ → Bool) (cb : Bool) (acts : List QueueAction) :
    ∀ s : QueueState, QueueInv s → QueueInv (runQueue raises cb acts s) := by
  induction acts with
  | nil => exact fun s h => h
  | cons a rest ih => exact fun s h => ih _ (qstep_inv raises cb s a h)

theorem initQueue_inv : QueueInv initQueue :=
  ⟨rfl, by simp [initQueue], fun _ => rfl⟩

/-- Claim C2, counterexample: an interleaving in which the worker handles
item 0, then sleeps the inter-item delay because item 1 is buffered; `stop()`
runs during the sleep (clearing the running flag and appending the sentinel
after item 1); the worker wakes, fails the `while self._running` test, and
drains — item 1, enqueued before `stop()` was called, is discarded without
the handler being invoked, yet the worker observed the sentinel, exited, and
`stop()` returned. -/
theorem C2_counterexample :
    (runQueue (fun _ => false) false
      [QueueAction.enqueue 0, QueueAction.enqueue 1, QueueAction.workerStep,
       QueueAction.workerStep, QueueAction.workerStep, QueueAction.workerStep,
       QueueAction.callStop, QueueAction.workerStep, QueueAction.workerStep,
       QueueAction.workerStep, QueueAction.workerStep, QueueAction.stopReturn]
      initQueue)
    = { buffer := []
      , running := false
      , phase := .exited
      , handled := [0]
      , errored := []
      , enqueuedLog := [0, 1]
      , discarded := [1]
      , stopRequested := true
      , stopReturned := true } := by decide

/-- Claim C2 (amended): over every interleaving, the handler is invoked on a
prefix of the enqueue order (so handling is FIFO and the sentinel is never
handled); `stop()` does not return until the worker coroutine has exited;
`stop()` places the sentinel at the FIFO tail, after every item enqueued
before the call; and the drain loop discards items without invoking the
handler or the error callback.  (The original claim's "every item enqueued
before stop() is handled" is dropped: a pending item can be discarded
unhandled once the worker observes the cleared running flag.) -/
theorem C2_amended (raises : ℕ → Bool) (cb : Bool) (acts : List QueueAction) :
    (∃ rest, (runQueue raises cb acts initQueue).enqueuedLog
        = (runQueue raises cb acts initQueue).handled ++ rest)
    ∧ ((runQueue raises cb acts initQueue).stopReturned = true →
        (runQueue raises cb acts initQueue).phase = WorkerPhase.exited)
    ∧ (∀ t : QueueState, (qstep raises cb t QueueAction.callStop).buffer = t.buffer ++ [none])
    ∧ (∀ t : QueueState, t.phase = WorkerPhase.draining →
        (qstep raises cb t QueueAction.workerStep).handled = t.handled
        ∧ (qstep raises cb t QueueAction.workerStep).errored = t.errored) := by
  obtain ⟨hlog, hret, _⟩ := runQueue_inv raises cb acts initQueue initQueue_inv
  refine ⟨⟨inFlight (runQueue raises cb acts initQueue)
      ++ ((runQueue raises cb acts initQueue).discarded
        ++ bufItems (runQueue raises cb acts initQueue).buffer),
      by rw [hlog]; simp [List.append_assoc]⟩, hret, fun t => rfl, fun t hph => ?_⟩
  dsimp only [qstep]
  simp only [workerStepFn, hph]
  rcases hb : t.buffer with _ | ⟨o, rest⟩
  · exact ⟨rfl, rfl⟩
  · rcases o with _ | i
    · exact ⟨rfl, rfl⟩
    · exact ⟨rfl, rfl⟩

/-- Claim C2, witness: `C2_amended` instantiated on the concrete schedule of
the counterexample trace. -/
theorem C2_witness :
    (∃ rest, (runQueue (fun _ => false) false
        [QueueAction.enqueue 0, QueueAction.enqueue 1, QueueAction.workerStep,
         QueueAction.workerStep, QueueAction.workerStep, QueueAction.workerStep,
         QueueAction.callStop, QueueAction.workerStep, QueueAction.workerStep,
         QueueAction.workerStep, QueueAction.workerStep, QueueAction.stopReturn]
        initQueue).enqueuedLog
      = (runQueue (fun _ => false) false
        [QueueAction.enqueue 0, QueueAction.enqueue 1, QueueAction.workerStep,
         QueueAction.workerStep, QueueAction.workerStep, QueueAction.workerStep,
         QueueAction.callStop, QueueAction.workerStep, QueueAction.workerStep,
         QueueAction.workerStep, QueueAction.workerStep, QueueAction.stopReturn]
        initQueue).handled ++ rest)
    ∧ ((runQueue (fun _ => false) false
        [QueueAction.enqueue 0, QueueAction.enqueue 1, QueueAction.workerStep,
         QueueAction.workerStep, QueueAction.workerStep, QueueAction.workerStep,
         QueueAction.callStop, QueueAction.workerStep, QueueAction.workerStep,
         QueueAction.workerStep, QueueAction.workerStep, QueueAction.stopReturn]
        initQueue).stopReturned = true →
      (runQueue (fun _ => false) false
        [QueueAction.enqueue 0, QueueAction.enqueue 1, QueueAction.workerStep,
         QueueAction.workerStep, QueueAction.workerStep, QueueAction.workerStep,
         QueueAction.callStop, QueueAction.workerStep, QueueAction.workerStep,
         QueueAction.workerStep, QueueAction.workerStep, QueueAction.stopReturn]
        initQueue).phase = WorkerPhase.exited)
    ∧ (∀ t : QueueState, (qstep (fun _ => false) false t QueueAction.callStop).buffer
        = t.buffer ++ [none])
    ∧ (∀ t : QueueState, t.phase = WorkerPhase.draining →
        (qstep (fun _ => false) false t QueueAction.workerStep).handled = t.handled
        ∧ (qstep (fun _ => false) false t QueueAction.workerStep).errored = t.errored) :=
  C2_amended (fun _ => false) false
    [QueueAction.enqueue 0, QueueAction.enqueue 1, QueueAction.workerStep,
     QueueAction.workerStep, QueueAction.workerStep, QueueAction.workerStep,
     QueueAction.callStop, QueueAction.workerStep, QueueAction.workerStep,
     QueueAction.workerStep, QueueAction.workerStep, QueueAction.stopReturn]

theorem runQueue_append (raises : ℕ → Bool) (cb : Bool) (a b : List QueueAction)
    (s : QueueState) :
    runQueue raises cb (a ++ b) s = runQueue raises cb b (runQueue raises cb a s) := by
  simp [runQueue, List.foldl_append]

theorem runQueue_enqueues (raises : ℕ → Bool) (cb : Bool) (items : List ℕ) :
    ∀ s : QueueState,
      runQueue raises cb (items.map QueueAction.enqueue) s
        = { s with buffer := s.buffer ++ items.map some,
                   enqueuedLog := s.enqueuedLog ++ items } := by
  induction items with
  | nil => intro s; simp [runQueue]
  | cons i rest ih =>
    intro s
    have hstep : runQueue raises cb ((i :: rest).map QueueAction.enqueue) s
        = runQueue raises cb (rest.map QueueAction.enqueue)
            { s with buffer := s.buffer ++ [some i], enqueuedLog := s.enqueuedLog ++ [i] } := rfl
    rw [hstep, ih]
    simp [List.append_assoc]

theorem runQueue_process (raises : ℕ → Bool) (cb : Bool) :
    ∀ (items : List ℕ) (hd er eqs dc : List ℕ) (srq srt : Bool),
      items ≠ [] →
      runQueue raises cb (List.replicate (5 * items.length) QueueAction.workerStep)
        { buffer := items.map some, running := true, phase := .loopCheck,
          handled := hd, errored := er, enqueuedLog := eqs, discarded := dc,
          stopRequested := srq, stopReturned := srt }
      = { buffer := [], running := true, phase := .awaitGet,
          handled := hd ++ items,
          errored := er ++ items.filter (fun i => raises i && cb),
          enqueuedLog := eqs, discarded := dc,
          stopRequested := srq, stopReturned := srt } := by
  intro items
  induction items with
  | nil => intro _ _ _ _ _ _ hne; exact absurd rfl hne
  | cons i rest ih =>
    intro hd er eqs dc srq srt _
    rcases hrest : rest with _ | ⟨j, rest2⟩
    · subst hrest
      rcases hri : raises i <;> rcases hcb : cb <;>
        simp [runQueue, qstep, workerStepFn, List.filter, hri, hcb]
    · rw [← hrest]
      have hlen : 5 * (i :: rest).length = 5 + 5 * rest.length := by
        simp [List.length_cons]; omega
      rw [hlen, List.replicate_add, runQueue_append]
      have h5 : runQueue raises cb (List.replicate 5 QueueAction.workerStep)
          { buffer := (i :: rest).map some, running := true, phase := .loopCheck,
            handled := hd, errored := er, enqueuedLog := eqs, discarded := dc,
            stopRequested := srq, stopReturned := srt }
          = { buffer := rest.map some, running := true, phase := .loopCheck,
              handled := hd ++ [i],
              errored := er ++ (if raises i && cb then [i] else []),
              enqueuedLog := eqs, discarded := dc,
              stopRequested := srq, stopReturned := srt } := by
        rcases hri : raises i <;> rcases hcb : cb <;>
          simp [runQueue, qstep, workerStepFn, hri, hcb, hrest]
      rw [h5, ih _ _ _ _ _ _ (by rw [hrest]; simp)]
      rcases hri : raises i <;> rcases hcb : cb <;>
        simp [List.filter_cons, hri, hcb, List.append_assoc]

/-- Claim C7: for every sequence of enqueued items (and every pattern of
handler exceptions), a running worker that is scheduled through all of them
invokes the handler exactly once per item, in FIFO order; a raising
invocation routes the item to the error callback when one is supplied
(silently absorbed otherwise) and never prevents the handler from running on
the remaining items. -/
theorem C7_fault_isolation (raises : ℕ → Bool) (cb : Bool) (items : List ℕ) :
    (runQueue raises cb (items.map QueueAction.enqueue
        ++ List.replicate (5 * items.length) QueueAction.workerStep) initQueue).handled
      = items
    ∧ (runQueue raises cb (items.map QueueAction.enqueue
        ++ List.replicate (5 * items.length) QueueAction.workerStep) initQueue).errored
      = items.filter (fun i => raises i && cb) := by
  rw [runQueue_append, runQueue_enqueues]
  rcases hitems : items with _ | ⟨i, rest⟩
  · simp [runQueue, initQueue]
  · rw [← hitems]
    simp only [initQueue, List.nil_append]
    rw [runQueue_process raises cb items [] [] items [] false false
      (by rw [hitems]; simp)]
    exact ⟨by simp, by simp⟩

/-- Claim C9: evaluating `build_payload` with a mask image (alongside a base
image) raises ValueError instead of producing an inpaint payload — checked
here at a curated model and a non-curated model — because `_build_inpaint`
forwards its kwargs to `_build_image2image` without an `image` key, which
overwrites the previously attached image with `None` and then fails its own
required-key check. -/
theorem C9_mask_raises :
    build_payload 1234567890 (defaultParsed "1girl" false false)
        "nai-diffusion-4-5-curated" (some "BASE64IMG") (some "BASE64MASK") none
      = .error "image2image payload requires \x27image\x27"
    ∧ build_payload 1234567890 (defaultParsed "1girl" false false)
        "nai-diffusion-3" (some "BASE64IMG") (some "BASE64MASK") none
      = .error "image2image payload requires \x27image\x27" :=
  ⟨rfl, rfl⟩

/-! ### Heap (frame) theorems -/

theorem refGet_cons_ne {α : Type} {l : List (ℕ × α)} {k k2 : ℕ} {v : α} (hne : k2 ≠ k) :
    refGet ((k2, v) :: l) k = refGet l k := by
  show (if k2 = k then some v else refGet l k) = refGet l k
  rw [if_neg hne]

theorem refGet_cons_self {α : Type} {l : List (ℕ × α)} {k : ℕ} {v : α} :
    refGet ((k, v) :: l) k = some v := by
  show (if k = k then some v else refGet l k) = some v
  rw [if_pos rfl]

theorem refGet_refSet_ne {α : Type} {l : List (ℕ × α)} {k k2 : ℕ} {v : α} (hne : k2 ≠ k) :
    refGet (refSet l k2 v) k = refGet l k := by
  induction l with
  | nil =>
    show (if k2 = k then some v else refGet ([] : List (ℕ × α)) k)
      = refGet ([] : List (ℕ × α)) k
    rw [if_neg hne]
  | cons hd tl ih =>
    obtain ⟨k0, v0⟩ := hd
    by_cases hk : k0 = k2
    · subst hk
      show refGet (if k0 = k0 then (k0, v) :: tl else (k0, v0) :: refSet tl k0 v) k
        = refGet ((k0, v0) :: tl) k
      rw [if_pos rfl]
      show (if k0 = k then some v else refGet tl k)
        = (if k0 = k then some v0 else refGet tl k)
      rw [if_neg hne, if_neg hne]
    · show refGet (if k0 = k2 then (k0, v) :: tl else (k0, v0) :: refSet tl k2 v) k
        = refGet ((k0, v0) :: tl) k
      rw [if_neg hk]
      show (if k0 = k then some v0 else refGet (refSet tl k2 v) k)
        = (if k0 = k then some v0 else refGet tl k)
      by_cases hk0 : k0 = k
      · rw [if_pos hk0, if_pos hk0]
      · rw [if_neg hk0, if_neg hk0]
        exact ih

theorem i2i_h_spec (h : Heap) (r : ℕ) (img : Option String) (st no : ℚ)
    (ens : Option ℤ) (cc : Bool) {po : PayloadObj} {pa : Parameters}
    (hpo : refGet h.payloadObjs r = some po)
    (hpa : refGet h.paramObjs po.paramsRef = some pa) :
    build_image2image_h h r img st no ens cc = some
      ({ payloadObjs :=
           (h.nextRef + 1, { po with action := "img2img", paramsRef := h.nextRef })
             :: h.payloadObjs
       , paramObjs := (h.nextRef, i2iParamsUpd pa img st no ens cc) :: h.paramObjs
       , nextRef := h.nextRef + 2 },
       if img = none then .error "image2image payload requires \x27image\x27"
       else .ok (h.nextRef + 1)) := by
  unfold build_image2image_h
  simp only [hpo, hpa]
  split <;> rfl

theorem C10_part1 (h : Heap) (r : ℕ) (img : Option String) (st no : ℚ)
    (ens : Option ℤ) (cc : Bool) (po : PayloadObj) (pa : Parameters)
    (h1 : Heap) (res : Except String ℕ)
    (hpo : refGet h.payloadObjs r = some po)
    (hpa : refGet h.paramObjs po.paramsRef = some pa)
    (hr : r < h.nextRef) (hpr : po.paramsRef < h.nextRef)
    (hcall : build_image2image_h h r img st no ens cc = some (h1, res)) :
    refGet h1.payloadObjs r = some po
    ∧ refGet h1.paramObjs po.paramsRef = some pa
    ∧ (∀ r2, res = .ok r2 →
        r2 ≠ r
        ∧ refGet h1.payloadObjs r2
            = some { po with action := "img2img", paramsRef := h.nextRef }
        ∧ refGet h1.paramObjs h.nextRef
            = some (i2iParamsUpd pa img st no ens cc)) := by
  rw [i2i_h_spec h r img st no ens cc hpo hpa] at hcall
  simp only [Option.some.injEq, Prod.mk.injEq] at hcall
  obtain ⟨hh1, hres⟩ := hcall
  subst hh1
  refine ⟨?_, ?_, ?_⟩
  · rw [refGet_cons_ne (by omega)]
    exact hpo
  · rw [refGet_cons_ne (by omega)]
    exact hpa
  · intro r2 hr2
    rw [← hres] at hr2
    rcases img with _ | s0
    · rw [if_pos rfl] at hr2
      exact Except.noConfusion hr2
    · rw [if_neg (show ¬ (some s0 = none) by simp)] at hr2
      simp only [Except.ok.injEq] at hr2
      refine ⟨by omega, ?_, ?_⟩
      · rw [← hr2]
        exact refGet_cons_self
      · exact refGet_cons_self

theorem C10_part2 (h : Heap) (r : ℕ) (img mask : Option String) (st no : ℚ)
    (ens : Option ℤ) (cc : Bool) (po : PayloadObj) (pa : Parameters)
    (h1 : Heap) (res : Except String ℕ)
    (hpo : refGet h.payloadObjs r = some po)
    (hpa : refGet h.paramObjs po.paramsRef = some pa)
    (hr : r < h.nextRef) (hpr : po.paramsRef < h.nextRef)
    (hcall : build_inpaint_h h r img mask st no ens cc = some (h1, res)) :
    refGet h1.payloadObjs r = some po
    ∧ refGet h1.paramObjs po.paramsRef = some pa := by
  unfold build_inpaint_h at hcall
  rw [i2i_h_spec h r img st no ens cc hpo hpa] at hcall
  rcases img with _ | s0
  · rw [if_pos rfl] at hcall
    dsimp only at hcall
    simp only [Option.some.injEq, Prod.mk.injEq] at hcall
    obtain ⟨hh1, hres⟩ := hcall
    subst hh1
    constructor
    · rw [refGet_cons_ne (show h.nextRef + 1 ≠ r by omega)]
      exact hpo
    · rw [refGet_cons_ne (show h.nextRef ≠ po.paramsRef by omega)]
      exact hpa
  · rw [if_neg (show ¬ (some s0 = none) by simp)] at hcall
    try dsimp only at hcall
    rw [refGet_cons_ne (show h.nextRef + 1 ≠ r by omega), hpo, refGet_cons_self] at hcall
    try dsimp only at hcall
    simp only [apply_ite PayloadObj.paramsRef] at hcall
    try dsimp only at hcall
    simp only [ite_self] at hcall
    rw [refGet_cons_self] at hcall
    try dsimp only at hcall
    split at hcall
    all_goals
      simp only [Option.some.injEq, Prod.mk.injEq] at hcall
      obtain ⟨hh1, hres⟩ := hcall
      subst hh1
      refine ⟨?_, ?_⟩
      · rw [refGet_refSet_ne (show h.nextRef + 1 ≠ r by omega),
            refGet_cons_ne (show h.nextRef + 1 ≠ r by omega)]
        exact hpo
      · rw [refGet_refSet_ne (show h.nextRef ≠ po.paramsRef by omega),
            refGet_cons_ne (show h.nextRef ≠ po.paramsRef by omega)]
        exact hpa

/-- Claim C10: neither `_build_image2image` nor `_build_inpaint` mutates the
payload dictionary passed to it — after either call (whether it returns or
raises), the original payload object and its nested parameters object are
unchanged in the store; and the payload `_build_image2image` returns is a
fresh object (a distinct reference) holding a deep copy with the img2img
fields set. -/
theorem C10_no_mutation :
    (∀ (h : Heap) (r : ℕ) (img : Option String) (st no : ℚ) (ens : Option ℤ)
        (cc : Bool) (po : PayloadObj) (pa : Parameters) (h1 : Heap)
        (res : Except String ℕ),
      refGet h.payloadObjs r = some po →
      refGet h.paramObjs po.paramsRef = some pa →
      r < h.nextRef → po.paramsRef < h.nextRef →
      build_image2image_h h r img st no ens cc = some (h1, res) →
      refGet h1.payloadObjs r = some po
      ∧ refGet h1.paramObjs po.paramsRef = some pa
      ∧ (∀ r2, res = .ok r2 →
          r2 ≠ r
          ∧ refGet h1.payloadObjs r2
              = some { po with action := "img2img", paramsRef := h.nextRef }
          ∧ refGet h1.paramObjs h.nextRef
              = some (i2iParamsUpd pa img st no ens cc)))
    ∧ (∀ (h : Heap) (r : ℕ) (img mask : Option String) (st no : ℚ)
        (ens : Option ℤ) (cc : Bool) (po : PayloadObj) (pa : Parameters)
        (h1 : Heap) (res : Except String ℕ),
      refGet h.payloadObjs r = some po →
      refGet h.paramObjs po.paramsRef = some pa →
      r < h.nextRef → po.paramsRef < h.nextRef →
      build_inpaint_h h r img mask st no ens cc = some (h1, res) →
      refGet h1.payloadObjs r = some po
      ∧ refGet h1.paramObjs po.paramsRef = some pa) :=
  ⟨fun h r img st no ens cc po pa h1 res hpo hpa hr hpr hcall =>
      C10_part1 h r img st no ens cc po pa h1 res hpo hpa hr hpr hcall,
   fun h r img mask st no ens cc po pa h1 res hpo hpa hr hpr hcall =>
      C10_part2 h r img mask st no ens cc po pa h1 res hpo hpa hr hpr hcall⟩

/-- Claim C10, witness: `C10_no_mutation` applied on a concrete two-object
store — the original payload (reference 0) and parameters (reference 1) are
untouched and the copy lives at the fresh references 2 and 3. -/
theorem C10_witness :
    refGet exHeapAfterI2I.payloadObjs 0 = some exPayloadObj
    ∧ refGet exHeapAfterI2I.paramObjs exPayloadObj.paramsRef = some exParams
    ∧ (∀ r2, (Except.ok 3 : Except String ℕ) = .ok r2 →
        r2 ≠ 0
        ∧ refGet exHeapAfterI2I.payloadObjs r2
            = some { exPayloadObj with action := "img2img", paramsRef := exHeap.nextRef }
        ∧ refGet exHeapAfterI2I.paramObjs exHeap.nextRef
            = some (i2iParamsUpd exParams (some "img") (7/10) 0 none false)) :=
  C10_no_mutation.1 exHeap 0 (some "img") (7/10) 0 none false exPayloadObj
    exParams exHeapAfterI2I (.ok 3) (by rfl) (by rfl) (by decide) (by decide) (by rfl)

end NovelAI
